import Mathlib

/-!
Verification of the trading-intelligence learning loop against its
natural-language specification.  Each Python function relevant to a claim is
shallowly embedded as an executable Lean definition over `ℚ` (Python floats
are idealised as rationals; `None` becomes `Option`).  Theorems then settle
the spec claims against these definitions.
-/

set_option maxRecDepth 4000

/-! ## Shared numeric helpers

Python `round(x, n)` (round-half-to-even, idealised over `ℚ`) and list
statistics used by several modules. -/

/-- Round a rational to the nearest integer, ties to even (Python `round`). -/
def roundHalfEven (q : ℚ) : ℤ :=
  let f : ℤ := ⌊q⌋
  let r : ℚ := q - f
  if r < 1/2 then f
  else if 1/2 < r then f + 1
  else if f % 2 = 0 then f else f + 1

/-- Python `round(q, prec)` over rationals. -/
def roundTo (prec : ℕ) (q : ℚ) : ℚ :=
  (roundHalfEven (q * (10 : ℚ) ^ prec)) / (10 : ℚ) ^ prec

theorem roundHalfEven_ge_floor (q : ℚ) : ⌊q⌋ ≤ roundHalfEven q := by
  unfold roundHalfEven
  dsimp only
  split
  · exact le_refl _
  · split
    · omega
    · split
      · exact le_refl _
      · omega

/-- Rounding to `prec` places preserves lower bounds that are exact at that
precision: if `m / 10^prec ≤ q` then `m / 10^prec ≤ round(q, prec)`. -/
theorem roundTo_ge (prec : ℕ) (m : ℤ) (q : ℚ)
    (h : (m : ℚ) / (10 : ℚ) ^ prec ≤ q) :
    (m : ℚ) / (10 : ℚ) ^ prec ≤ roundTo prec q := by
  have hp : (0 : ℚ) < (10 : ℚ) ^ prec := by positivity
  have hm : (m : ℚ) ≤ q * (10 : ℚ) ^ prec := by
    have := (div_le_iff₀ hp).mp h
    linarith
  have hfloor : m ≤ ⌊q * (10 : ℚ) ^ prec⌋ := Int.le_floor.mpr (by exact_mod_cast hm)
  have hr : (m : ℚ) ≤ (roundHalfEven (q * (10 : ℚ) ^ prec) : ℚ) := by
    exact_mod_cast le_trans hfloor (roundHalfEven_ge_floor _)
  unfold roundTo
  gcongr

/-- Arithmetic mean of a list of rationals (`np.mean`; 0 on the empty list,
which no caller reaches). -/
def meanQ (l : List ℚ) : ℚ := l.sum / l.length

/-- Minimum of a list of rationals (`min(...)`; 0 on the empty list, which no
caller reaches). -/
def listMinQ : List ℚ → ℚ
  | [] => 0
  | x :: xs => xs.foldl min x

/-- First-maximal element by key, mirroring Python `max(seq, key=f)` which
keeps the earliest element among ties (`default` only for the empty list). -/
def argmaxBy (f : α → ℚ) (dflt : α) : List α → α
  | [] => dflt
  | x :: xs => xs.foldl (fun best y => if f best < f y then y else best) x

/-- Order-preserving de-duplication: the keys of a Python dict built by
appending values group-by-group, in first-occurrence order. -/
def dedupKeys (l : List String) : List String :=
  l.foldl (fun acc s => if s ∈ acc then acc else acc ++ [s]) []

/-! ## Strategy Factory: the deploy gate

From `learning/strategy_factory.py`.  `StrategyVersion` is the dataclass at
the top of the file; `shouldDeploy` is the Phase-5 decision inside
`StrategyFactory.run_the_loop` (deploy iff there is no current version, or
`version.win_rate - self.current_version.win_rate >= self.min_improvement`,
with `min_improvement = 5.0` in `__init__`). -/

structure StrategyVersion where
  version_id : String
  created_at : String
  rules_count : ℕ
  win_rate : ℚ
  profit_factor : ℚ
  is_active : Bool
  notes : String
  deriving DecidableEq, Repr

namespace StrategyFactory

/-- Default `min_improvement` from `StrategyFactory.__init__`. -/
def min_improvement : ℚ := 5

/-- The Phase-5 deploy decision of `run_the_loop`, as a function of the
current active version (if any) and the freshly created version's win rate. -/
def shouldDeploy (current : Option StrategyVersion) (newWinRate : ℚ)
    (minImp : ℚ) : Bool :=
  match current with
  | none => true
  | some cv => if newWinRate - cv.win_rate ≥ minImp then true else false

/-- A concrete active version with win rate 58, for the spec scenario. -/
def activeV58 : StrategyVersion :=
  { version_id := "v1.0_20250101", created_at := "2025-01-01T00:00:00",
    rules_count := 10, win_rate := 58, profit_factor := 2,
    is_active := true, notes := "" }

end StrategyFactory

/-- C1 (counterexample): with an active version whose win rate is 58, a new
version with win rate 62 is NOT deployed (improvement 4 < 5), contradicting
the claimed scenario `58 -> 62 deploys`. -/
theorem c1_deploy_gate_62_not_deployed :
    StrategyFactory.shouldDeploy (some StrategyFactory.activeV58) 62
      StrategyFactory.min_improvement = false := by
  norm_num [StrategyFactory.shouldDeploy, StrategyFactory.activeV58,
    StrategyFactory.min_improvement]

/-- C1 (amended): the deploy gate of the learning loop deploys the new
version iff no active version exists or `new.win_rate - active.win_rate ≥
min_improvement` (default 5); in particular, with an active version at win
rate 58, a new version at 60 or 62 is not deployed while one at 63 is. -/
theorem c1_deploy_gate_amended :
    (∀ w : ℚ, StrategyFactory.shouldDeploy none w StrategyFactory.min_improvement = true) ∧
    (∀ (cv : StrategyVersion) (w m : ℚ),
      StrategyFactory.shouldDeploy (some cv) w m = true ↔ w - cv.win_rate ≥ m) ∧
    StrategyFactory.shouldDeploy (some StrategyFactory.activeV58) 60
      StrategyFactory.min_improvement = false ∧
    StrategyFactory.shouldDeploy (some StrategyFactory.activeV58) 63
      StrategyFactory.min_improvement = true := by
  refine ⟨fun w => rfl, fun cv w m => ?_,
    by norm_num [StrategyFactory.shouldDeploy, StrategyFactory.activeV58,
      StrategyFactory.min_improvement],
    by norm_num [StrategyFactory.shouldDeploy, StrategyFactory.activeV58,
      StrategyFactory.min_improvement]⟩
  simp [StrategyFactory.shouldDeploy]

/-! ## Auto-Logger: signal admission and per-tick outcome checks

From `learning/auto_logger.py`.  The polled Firebase JSON document becomes
`ALSnapshot` (missing keys become `none`; `data.get(key, default)` becomes
`Option.getD`).  `AutoSignal` mirrors the dataclass; the wall-clock string
fields `signal_id` and the ISO `timestamp` are represented by the opening
time in minutes (`open_time : ℚ`) that the expiry check consumes, and exit
times are likewise minutes.  On a created signal the logger also stores the
signal hash in `self.last_signal_hash`; the hash state is passed in
explicitly here. -/

namespace AutoLogger

structure Config where
  stop_loss_points : ℚ
  take_profit_points : ℚ
  min_score : ℚ
  signal_expiry_minutes : ℚ
  check_interval_seconds : ℚ
  deriving DecidableEq, Repr

/-- The `self.config` defaults from `AutoLogger.__init__`. -/
def defaultConfig : Config :=
  { stop_loss_points := 4, take_profit_points := 8, min_score := 60,
    signal_expiry_minutes := 60, check_interval_seconds := 10 }

/-- One polled tick-source document. -/
structure ALSnapshot where
  price : Option ℚ
  score_long : Option ℚ
  score_short : Option ℚ
  trend : Option String
  session : Option String
  stoch : Option ℚ
  rsi : Option ℚ
  atr : Option ℚ
  deriving DecidableEq, Repr

structure AutoSignal where
  open_time : ℚ
  direction : String
  entry_price : ℚ
  stop_loss : ℚ
  take_profit : ℚ
  score_long : ℚ
  score_short : ℚ
  regime : String
  session : String
  stoch : ℚ
  rsi : ℚ
  atr : ℚ
  status : String := "OPEN"
  exit_price : Option ℚ := none
  exit_time : Option ℚ := none
  pnl : Option ℚ := none
  max_profit : ℚ := 0
  max_loss : ℚ := 0
  deriving DecidableEq, Repr

/-- `AutoLogger.check_for_new_signal`.  Python treats a missing or zero
`price` as "no update"; the de-duplication hash `f"{price}_{score_long}_
{score_short}"` is modelled by the value triple it encodes. -/
def checkForNewSignal (cfg : Config) (lastHash : Option (ℚ × ℚ × ℚ))
    (data : Option ALSnapshot) (now : ℚ) : Option AutoSignal :=
  match data with
  | none => none
  | some d =>
    match d.price with
    | none => none
    | some price =>
      if price = 0 then none
      else
        let score_long := d.score_long.getD 0
        let score_short := d.score_short.getD 0
        let signal_hash := (price, score_long, score_short)
        if some signal_hash = lastHash then none
        else if max score_long score_short < cfg.min_score then none
        else if score_long > score_short ∧ score_long ≥ cfg.min_score then
          some { open_time := now, direction := "LONG", entry_price := price,
                 stop_loss := price - cfg.stop_loss_points,
                 take_profit := price + cfg.take_profit_points,
                 score_long := score_long, score_short := score_short,
                 regime := d.trend.getD "UNKNOWN",
                 session := d.session.getD "unknown",
                 stoch := d.stoch.getD 50, rsi := d.rsi.getD 50,
                 atr := d.atr.getD 0 }
        else if score_short > score_long ∧ score_short ≥ cfg.min_score then
          some { open_time := now, direction := "SHORT", entry_price := price,
                 stop_loss := price + cfg.stop_loss_points,
                 take_profit := price - cfg.take_profit_points,
                 score_long := score_long, score_short := score_short,
                 regime := d.trend.getD "UNKNOWN",
                 session := d.session.getD "unknown",
                 stoch := d.stoch.getD 50, rsi := d.rsi.getD 50,
                 atr := d.atr.getD 0 }
        else none

/-- The terminal update applied by `check_signal_outcome` when a trade
closes. -/
def closeSignal (s : AutoSignal) (st : String) (price pnl now : ℚ) :
    AutoSignal :=
  { s with status := st, exit_price := some price, pnl := some pnl,
           exit_time := some now }

/-- The running `max_profit` / `max_loss` update at the top of each branch
of `check_signal_outcome` (it touches no other field, so the TP/SL/expiry
conditions read the same values before and after it). -/
def trackExtremes (s : AutoSignal) (current_pnl : ℚ) : AutoSignal :=
  { s with max_profit := max s.max_profit current_pnl,
           max_loss := min s.max_loss current_pnl }

/-- `AutoLogger.check_signal_outcome`: for an OPEN trade, update the
running max profit/drawdown, then check TP, then SL, then expiry, in the
order of the source.  Returns the updated signal and whether it closed. -/
def checkSignalOutcome (cfg : Config) (now : ℚ) (s : AutoSignal)
    (price : ℚ) : AutoSignal × Bool :=
  if s.status ≠ "OPEN" then (s, true)
  else if s.direction = "LONG" then
    if price ≥ s.take_profit then
      (closeSignal (trackExtremes s (price - s.entry_price)) "WIN" price
        (price - s.entry_price) now, true)
    else if price ≤ s.stop_loss then
      (closeSignal (trackExtremes s (price - s.entry_price)) "LOSS" price
        (price - s.entry_price) now, true)
    else if now - s.open_time > cfg.signal_expiry_minutes then
      (closeSignal (trackExtremes s (price - s.entry_price)) "EXPIRED" price
        (price - s.entry_price) now, true)
    else (trackExtremes s (price - s.entry_price), false)
  else
    if price ≤ s.take_profit then
      (closeSignal (trackExtremes s (s.entry_price - price)) "WIN" price
        (s.entry_price - price) now, true)
    else if price ≥ s.stop_loss then
      (closeSignal (trackExtremes s (s.entry_price - price)) "LOSS" price
        (s.entry_price - price) now, true)
    else if now - s.open_time > cfg.signal_expiry_minutes then
      (closeSignal (trackExtremes s (s.entry_price - price)) "EXPIRED" price
        (s.entry_price - price) now, true)
    else (trackExtremes s (s.entry_price - price), false)

/-- A tied-score snapshot: price present, both scores 70 ≥ min_score 60. -/
def tieSnapshot : ALSnapshot :=
  { price := some 2000, score_long := some 70, score_short := some 70,
    trend := none, session := none, stoch := none, rsi := none, atr := none }

end AutoLogger

/-- C2 (counterexample): a snapshot with `score_long = score_short = 70` and
price 2000 satisfies `max(score_long, score_short) ≥ min_score` (70 ≥ 60),
is not de-duplicated, yet `check_for_new_signal` opens no trade, refuting
the claimed tie case. -/
theorem c2_tie_opens_no_trade :
    AutoLogger.checkForNewSignal AutoLogger.defaultConfig none
      (some AutoLogger.tieSnapshot) 0 = none ∧
    max (70 : ℚ) 70 ≥ AutoLogger.defaultConfig.min_score := by
  constructor
  · norm_num [AutoLogger.checkForNewSignal, AutoLogger.tieSnapshot,
      AutoLogger.defaultConfig]
  · norm_num [AutoLogger.defaultConfig]

/-- C2 (amended): for a polled snapshot with a non-zero price that is not
de-duplicated, a new paper trade is opened iff
`max(score_long, score_short) ≥ min_score` AND the two scores differ; the
direction is the strict argmax, with SL/TP at the configured fixed point
offsets from the entry price (a tie opens no trade). -/
theorem c2_admission_amended (cfg : AutoLogger.Config)
    (lastHash : Option (ℚ × ℚ × ℚ)) (d : AutoLogger.ALSnapshot)
    (now p : ℚ) (hp : d.price = some p) (h0 : p ≠ 0)
    (hdup : some (p, d.score_long.getD 0, d.score_short.getD 0) ≠ lastHash) :
    ((∃ s, AutoLogger.checkForNewSignal cfg lastHash (some d) now = some s) ↔
      (cfg.min_score ≤ max (d.score_long.getD 0) (d.score_short.getD 0) ∧
        d.score_long.getD 0 ≠ d.score_short.getD 0)) ∧
    (∀ s, AutoLogger.checkForNewSignal cfg lastHash (some d) now = some s →
      (d.score_short.getD 0 < d.score_long.getD 0 →
        s.direction = "LONG" ∧ s.entry_price = p ∧
        s.stop_loss = p - cfg.stop_loss_points ∧
        s.take_profit = p + cfg.take_profit_points) ∧
      (d.score_long.getD 0 < d.score_short.getD 0 →
        s.direction = "SHORT" ∧ s.entry_price = p ∧
        s.stop_loss = p + cfg.stop_loss_points ∧
        s.take_profit = p - cfg.take_profit_points)) := by
  simp only [AutoLogger.checkForNewSignal, hp]
  rw [if_neg h0, if_neg hdup]
  set sL := d.score_long.getD 0 with hsL
  set sS := d.score_short.getD 0 with hsS
  constructor
  · constructor
    · rintro ⟨s, hs⟩
      split at hs
      · exact absurd hs (by simp)
      · split at hs
        · rename_i hmax hL
          exact ⟨le_of_not_lt hmax, ne_of_gt hL.1⟩
        · split at hs
          · rename_i hmax _ hS
            exact ⟨le_of_not_lt hmax, (ne_of_gt hS.1).symm⟩
          · exact absurd hs (by simp)
    · rintro ⟨hmin, hne⟩
      rw [if_neg (not_lt.mpr hmin)]
      rcases lt_or_gt_of_ne hne with h | h
      · -- sL < sS: the SHORT branch fires
        have hS : sS > sL ∧ sS ≥ cfg.min_score :=
          ⟨h, le_trans hmin (by simp [max_le_iff, le_of_lt h])⟩
        rw [if_neg (by simp only [not_and, not_le]; intro hc; exact absurd hc (lt_asymm h))]
        rw [if_pos hS]
        exact ⟨_, rfl⟩
      · -- sS < sL: the LONG branch fires
        have hL : sL > sS ∧ sL ≥ cfg.min_score :=
          ⟨h, le_trans hmin (by simp [max_le_iff, le_of_lt h])⟩
        rw [if_pos hL]
        exact ⟨_, rfl⟩
  · intro s hs
    split at hs
    · exact absurd hs (by simp)
    · split at hs
      · rename_i hmax hL
        refine ⟨fun _ => ?_, fun hSgt => absurd hSgt (lt_asymm hL.1)⟩
        obtain rfl := Option.some_injective _ hs
        exact ⟨rfl, rfl, rfl, rfl⟩
      · split at hs
        · rename_i hmax hnL hS
          refine ⟨fun hLgt => absurd hLgt (lt_asymm hS.1), fun _ => ?_⟩
          obtain rfl := Option.some_injective _ hs
          exact ⟨rfl, rfl, rfl, rfl⟩
        · exact absurd hs (by simp)

/-- A decisive LONG snapshot used to witness the amended admission rule. -/
def longSnapshot : AutoLogger.ALSnapshot :=
  { price := some 2000, score_long := some 70, score_short := some 50,
    trend := none, session := none, stoch := none, rsi := none, atr := none }

/-- Witness for C2 (amended) at a concrete snapshot: price 2000, scores
70/50 under the default config admit a LONG trade with SL 1996, TP 2008. -/
theorem c2_admission_amended_witness :
    (∃ s, AutoLogger.checkForNewSignal AutoLogger.defaultConfig none
      (some longSnapshot) 0 = some s) ∧
    (∀ s, AutoLogger.checkForNewSignal AutoLogger.defaultConfig none
      (some longSnapshot) 0 = some s →
      s.direction = "LONG" ∧ s.entry_price = 2000 ∧
      s.stop_loss = 1996 ∧ s.take_profit = 2008) := by
  have h := c2_admission_amended AutoLogger.defaultConfig none longSnapshot 0 2000
    (by norm_num [longSnapshot]) (by norm_num)
    (by simp)
  constructor
  · exact h.1.mpr (by norm_num [longSnapshot, AutoLogger.defaultConfig])
  · intro s hs
    have h2 := (h.2 s hs).1 (by norm_num [longSnapshot])
    norm_num [AutoLogger.defaultConfig] at h2
    exact h2

/-- C3: per-tick outcome ordering of the Auto-Logger.  TP is evaluated
before SL and SL before expiry: a LONG trade whose tick price satisfies
both `price ≥ TP` and `price ≤ SL` closes as WIN (symmetrically for SHORT
with `price ≤ TP` and `price ≥ SL`); if TP did not fire but SL did, the
trade closes as LOSS (never EXPIRED); and a trade only expires on a tick
where neither the TP nor the SL condition held. -/
theorem c3_tp_before_sl_before_expiry (cfg : AutoLogger.Config) (now : ℚ)
    (s : AutoLogger.AutoSignal) (price : ℚ) (hopen : s.status = "OPEN") :
    (s.direction = "LONG" → s.take_profit ≤ price → price ≤ s.stop_loss →
      (AutoLogger.checkSignalOutcome cfg now s price).1.status = "WIN") ∧
    (s.direction ≠ "LONG" → price ≤ s.take_profit → s.stop_loss ≤ price →
      (AutoLogger.checkSignalOutcome cfg now s price).1.status = "WIN") ∧
    (s.direction = "LONG" → ¬ s.take_profit ≤ price → price ≤ s.stop_loss →
      (AutoLogger.checkSignalOutcome cfg now s price).1.status = "LOSS") ∧
    (s.direction ≠ "LONG" → ¬ price ≤ s.take_profit → s.stop_loss ≤ price →
      (AutoLogger.checkSignalOutcome cfg now s price).1.status = "LOSS") ∧
    ((AutoLogger.checkSignalOutcome cfg now s price).1.status = "EXPIRED" →
      (s.direction = "LONG" → ¬ s.take_profit ≤ price ∧ ¬ price ≤ s.stop_loss) ∧
      (s.direction ≠ "LONG" → ¬ price ≤ s.take_profit ∧ ¬ s.stop_loss ≤ price)) := by
  have hno : ¬ s.status ≠ "OPEN" := by simp [hopen]
  unfold AutoLogger.checkSignalOutcome
  rw [if_neg hno]
  by_cases hdir : s.direction = "LONG"
  · rw [if_pos hdir]
    refine ⟨fun _ htp _ => ?_, fun hd => absurd hdir hd, fun _ hntp hsl => ?_,
      fun hd => absurd hdir hd, ?_⟩
    · rw [if_pos htp]
      simp [AutoLogger.closeSignal]
    · rw [if_neg hntp, if_pos hsl]
      simp [AutoLogger.closeSignal]
    · intro hexp
      refine ⟨fun _ => ?_, fun hd => absurd hdir hd⟩
      by_cases htp : s.take_profit ≤ price
      · rw [if_pos htp] at hexp
        simp [AutoLogger.closeSignal] at hexp
      · rw [if_neg htp] at hexp
        by_cases hsl : price ≤ s.stop_loss
        · rw [if_pos hsl] at hexp
          simp [AutoLogger.closeSignal] at hexp
        · exact ⟨htp, hsl⟩
  · rw [if_neg hdir]
    refine ⟨fun hd => absurd hd hdir, fun _ htp hsl => ?_,
      fun hd => absurd hd hdir, fun _ hntp hsl => ?_, ?_⟩
    · rw [if_pos htp]
      simp [AutoLogger.closeSignal]
    · rw [if_neg hntp, if_pos hsl]
      simp [AutoLogger.closeSignal]
    · intro hexp
      refine ⟨fun hd => absurd hd hdir, fun _ => ?_⟩
      by_cases htp : price ≤ s.take_profit
      · rw [if_pos htp] at hexp
        simp [AutoLogger.closeSignal] at hexp
      · rw [if_neg htp] at hexp
        by_cases hsl : s.stop_loss ≤ price
        · rw [if_pos hsl] at hexp
          simp [AutoLogger.closeSignal] at hexp
        · exact ⟨htp, hsl⟩

/-- An open LONG paper trade whose SL (2010) sits above its TP (2008), so a
single tick can satisfy both exit conditions at once. -/
def straddleTrade : AutoLogger.AutoSignal :=
  { open_time := 0, direction := "LONG", entry_price := 2000,
    stop_loss := 2010, take_profit := 2008, score_long := 70,
    score_short := 0, regime := "STRONG_UPTREND", session := "london",
    stoch := 50, rsi := 50, atr := 5 }

/-- Witness for C3: at tick price 2009 the straddling LONG trade satisfies
both `price ≥ TP` and `price ≤ SL` and closes as WIN. -/
theorem c3_tp_before_sl_before_expiry_witness :
    straddleTrade.status = "OPEN" ∧
    (AutoLogger.checkSignalOutcome AutoLogger.defaultConfig 1 straddleTrade
      2009).1.status = "WIN" :=
  ⟨by norm_num [straddleTrade],
   (c3_tp_before_sl_before_expiry AutoLogger.defaultConfig 1 straddleTrade 2009
      (by norm_num [straddleTrade])).1
    (by norm_num [straddleTrade]) (by norm_num [straddleTrade])
    (by norm_num [straddleTrade])⟩

/-! ## Sentiment Analyzer: `determine_sentiment`

From `analysis/sentiment.py`.  The function is a pure decision tree on the
three look-back-5 percent moves; the `±0.3%` deadband literals become
`3/10`. -/

inductive MarketSentiment
  | RISK_ON | RISK_OFF | NEUTRAL | UNCERTAIN
  deriving DecidableEq, Repr

namespace Sentiment

open MarketSentiment

/-- `SentimentAnalyzer.determine_sentiment(gold_change, sp500_change,
dxy_change)`, returning the sentiment and its confidence, with the guards
in the source's order. -/
def determineSentiment (gold_change sp500_change dxy_change : ℚ) :
    MarketSentiment × ℚ :=
  if sp500_change > 3/10 ∧ dxy_change < -(3/10) ∧ gold_change > 3/10 then
    (RISK_ON, min (|sp500_change| + |dxy_change| + |gold_change|) 3 / 3)
  else if sp500_change < -(3/10) ∧ dxy_change > 3/10 ∧ gold_change > 3/10 then
    (RISK_OFF, min (|sp500_change| + |dxy_change| + |gold_change|) 3 / 3)
  else if sp500_change < -(3/10) ∧ gold_change > 3/10 then
    (RISK_OFF, min (|sp500_change| + |gold_change|) 2 / 2 * (7/10))
  else if sp500_change > 3/10 ∧ gold_change > 3/10 then
    (RISK_ON, min (|sp500_change| + |gold_change|) 2 / 2 * (7/10))
  else if (gold_change > 3/10 ∧ sp500_change > 3/10 ∧ dxy_change > 3/10) ∨
      (gold_change < -(3/10) ∧ sp500_change < -(3/10) ∧ dxy_change < -(3/10)) then
    (UNCERTAIN, 3/10)
  else
    (NEUTRAL, 1/2)

end Sentiment

/-- C8 (counterexample): with all three moves at +1% (all above the +0.3%
deadband), `determine_sentiment` returns RISK_ON at confidence 0.7 — the
earlier `equity up ∧ gold up` fallback fires — not the claimed UNCERTAIN at
confidence 0.3. -/
theorem c8_all_up_returns_risk_on :
    Sentiment.determineSentiment 1 1 1 = (MarketSentiment.RISK_ON, 7/10) ∧
    Sentiment.determineSentiment 1 1 1 ≠ (MarketSentiment.UNCERTAIN, 3/10) := by
  constructor
  · norm_num [Sentiment.determineSentiment]
  · norm_num [Sentiment.determineSentiment]

/-- C8 (amended): only the all-down case reaches the UNCERTAIN branch
(confidence 0.3); the all-up case is captured first by the
`equity up ∧ gold up` fallback and yields RISK_ON with the 0.7-scaled
confidence. -/
theorem c8_sentiment_amended (gold_change sp500_change dxy_change : ℚ) :
    (gold_change < -(3/10) → sp500_change < -(3/10) → dxy_change < -(3/10) →
      Sentiment.determineSentiment gold_change sp500_change dxy_change =
        (MarketSentiment.UNCERTAIN, 3/10)) ∧
    (gold_change > 3/10 → sp500_change > 3/10 → dxy_change > 3/10 →
      Sentiment.determineSentiment gold_change sp500_change dxy_change =
        (MarketSentiment.RISK_ON,
          min (|sp500_change| + |gold_change|) 2 / 2 * (7/10))) := by
  constructor
  · intro hg hs hd
    unfold Sentiment.determineSentiment
    rw [if_neg (by rintro ⟨h1, -, -⟩; linarith)]
    rw [if_neg (by rintro ⟨-, -, h3⟩; linarith)]
    rw [if_neg (by rintro ⟨-, h2⟩; linarith)]
    rw [if_neg (by rintro ⟨h1, -⟩; linarith)]
    rw [if_pos (Or.inr ⟨hg, hs, hd⟩)]
  · intro hg hs hd
    unfold Sentiment.determineSentiment
    rw [if_neg (by rintro ⟨-, h2, -⟩; linarith)]
    rw [if_neg (by rintro ⟨h1, -, -⟩; linarith)]
    rw [if_neg (by rintro ⟨h1, -⟩; linarith)]
    rw [if_pos ⟨hs, hg⟩]

/-- Witness for C8 (amended): all-down at −1% yields UNCERTAIN@0.3; all-up
at +1% yields RISK_ON@0.7. -/
theorem c8_sentiment_amended_witness :
    Sentiment.determineSentiment (-1) (-1) (-1) =
      (MarketSentiment.UNCERTAIN, 3/10) ∧
    Sentiment.determineSentiment 1 1 1 = (MarketSentiment.RISK_ON, 7/10) := by
  constructor
  · exact (c8_sentiment_amended (-1) (-1) (-1)).1 (by norm_num) (by norm_num)
      (by norm_num)
  · have h := (c8_sentiment_amended 1 1 1).2 (by norm_num) (by norm_num)
      (by norm_num)
    rw [h]
    norm_num

/-! ## Regime Classifier: `detect_trend`

From `analysis/regime.py`.  The data-frame view carries the latest ADX and
Close, the optional latest EMA_9/EMA_50 (`latest.get(col, price)`), and the
whole EMA_21 column as an optional list (`'EMA_21' in df.columns`).  Note
`df['EMA_21'].iloc[-self.ema_slope_period]` is the element at position
`len - ema_slope_period`, i.e. `ema_slope_period - 1` bars before the last
bar. -/

inductive TrendState
  | STRONG_UPTREND | WEAK_UPTREND | RANGING | WEAK_DOWNTREND | STRONG_DOWNTREND
  deriving DecidableEq, Repr

namespace Regime

structure RegimeDetector where
  adx_trending : ℚ
  adx_ranging : ℚ
  vol_high : ℚ
  vol_low : ℚ
  liq_high : ℚ
  liq_low : ℚ
  ema_slope_period : ℕ
  deriving DecidableEq, Repr

/-- The `RegimeDetector.__init__` defaults. -/
def defaultDetector : RegimeDetector :=
  { adx_trending := 25, adx_ranging := 20, vol_high := 3/2, vol_low := 7/10,
    liq_high := 3/2, liq_low := 7/10, ema_slope_period := 5 }

/-- The inputs `detect_trend` reads from the data frame. -/
structure RegimeDf where
  adx : ℚ
  close : ℚ
  ema9 : Option ℚ
  ema50 : Option ℚ
  ema21_col : Option (List ℚ)
  deriving DecidableEq, Repr

open TrendState

/-- `RegimeDetector.detect_trend`, returning `(trend, adx, ema_slope)`. -/
def detectTrend (det : RegimeDetector) (df : RegimeDf) :
    TrendState × ℚ × ℚ :=
  let adx := df.adx
  let ema_slope :=
    match df.ema21_col with
    | some xs =>
      if xs.length > det.ema_slope_period then
        (xs.getD (xs.length - 1) 0 - xs.getD (xs.length - det.ema_slope_period) 0) /
          xs.getD (xs.length - det.ema_slope_period) 0 * 100
      else 0
    | none => 0
  let price := df.close
  let ema_9 := df.ema9.getD price
  let ema_21 :=
    match df.ema21_col with
    | some xs => xs.getD (xs.length - 1) price
    | none => price
  let ema_50 := df.ema50.getD price
  let bullish_alignment := price > ema_9 ∧ ema_9 > ema_21 ∧ ema_21 > ema_50
  let bearish_alignment := price < ema_9 ∧ ema_9 < ema_21 ∧ ema_21 < ema_50
  let trend :=
    if adx > det.adx_trending then
      if ema_slope > 1/2 ∨ bullish_alignment then STRONG_UPTREND
      else if ema_slope < -(1/2) ∨ bearish_alignment then STRONG_DOWNTREND
      else if ema_slope > 0 then WEAK_UPTREND
      else WEAK_DOWNTREND
    else if adx < det.adx_ranging then RANGING
    else if ema_slope > 1/5 then WEAK_UPTREND
    else if ema_slope < -(1/5) then WEAK_DOWNTREND
    else RANGING
  (trend, adx, ema_slope)

/-- EMA_21 column with six bars whose values separate index `len - 6`
(value 100) from index `len - 5` (value 200). -/
def slopeColumn : List ℚ := [100, 200, 1, 1, 1, 300]

/-- A data-frame view holding `slopeColumn` as its EMA_21 column. -/
def slopeDf : RegimeDf :=
  { adx := 30, close := 300, ema9 := none, ema50 := none,
    ema21_col := some slopeColumn }

end Regime

/-- C7 (counterexample): with more than 5 bars available
(EMA_21 column `[100, 200, 1, 1, 1, 300]`), `detect_trend` computes
`ema_slope = (300 - 200) / 200 * 100 = 50` — reading the value 4 bars
before the last — whereas the claimed formula
`(ema21_t - ema21_{t-5}) / ema21_{t-5} * 100 = (300 - 100) / 100 * 100`
gives 200. -/
theorem c7_slope_uses_4_bars_back :
    (Regime.detectTrend Regime.defaultDetector Regime.slopeDf).2.2 = 50 ∧
    Regime.slopeColumn.length > 5 ∧
    ((300 : ℚ) - 100) / 100 * 100 = 200 ∧ (50 : ℚ) ≠ 200 := by
  refine ⟨?_, by norm_num [Regime.slopeColumn], by norm_num, by norm_num⟩
  norm_num [Regime.detectTrend, Regime.slopeDf, Regime.slopeColumn,
    Regime.defaultDetector]

/-- C7 (amended): whenever the EMA_21 column is present with more than
`ema_slope_period` (default 5) bars, `detect_trend` computes the slope as
the percent change of EMA_21 from the value `ema_slope_period - 1`
(default 4) bars before the last bar to the last bar. -/
theorem c7_slope_amended (det : Regime.RegimeDetector) (df : Regime.RegimeDf)
    (xs : List ℚ) (hcol : df.ema21_col = some xs)
    (hp : 1 ≤ det.ema_slope_period)
    (hlen : det.ema_slope_period < xs.length) :
    (Regime.detectTrend det df).2.2 =
      (xs.getD (xs.length - 1) 0 -
          xs.getD (xs.length - 1 - (det.ema_slope_period - 1)) 0) /
        xs.getD (xs.length - 1 - (det.ema_slope_period - 1)) 0 * 100 := by
  have hidx : xs.length - 1 - (det.ema_slope_period - 1) =
      xs.length - det.ema_slope_period := by omega
  rw [hidx]
  simp only [Regime.detectTrend, hcol]
  rw [if_pos hlen]

/-- Witness for C7 (amended): on the six-bar column the amended formula and
the implementation agree at 50. -/
theorem c7_slope_amended_witness :
    (Regime.detectTrend Regime.defaultDetector Regime.slopeDf).2.2 =
      (Regime.slopeColumn.getD (Regime.slopeColumn.length - 1) 0 -
          Regime.slopeColumn.getD (Regime.slopeColumn.length - 1 - 4) 0) /
        Regime.slopeColumn.getD (Regime.slopeColumn.length - 1 - 4) 0 * 100 :=
  c7_slope_amended Regime.defaultDetector Regime.slopeDf Regime.slopeColumn
    rfl (by norm_num [Regime.defaultDetector])
    (by norm_num [Regime.defaultDetector, Regime.slopeColumn])

/-! ## Signal Log: `update_outcome`

From `learning/signal_logger.py`.  `SignalRecord` keeps the fields that
`update_outcome` reads or writes; the analysis-context snapshot fields
(`market_conditions`, `indicators`, `pattern_match`, `risk_factors`,
`score`, `configuration`, `timestamp`, `notes`) are neither read nor
written by it and are not modelled.  The wall-clock `datetime.utcnow()`
strings are passed in as `now`.  Python dict insertion
`snapshots[key] = v` keeps an existing key at its original position. -/

namespace SignalLogger

structure PriceSnapshot where
  price : ℚ
  pnl : ℚ
  pnl_pct : ℚ
  timestamp : String
  deriving DecidableEq, Repr

structure SignalOutcome where
  tracked_until : String
  snapshots : List (String × PriceSnapshot) := []
  max_profit : ℚ := 0
  max_profit_pct : ℚ := 0
  max_drawdown : ℚ := 0
  max_drawdown_pct : ℚ := 0
  peak_time : String := ""
  result : String := "PENDING"
  target_hit : Bool := false
  target_price : Option ℚ := none
  target_time : Option String := none
  stop_hit : Bool := false
  final_pnl : ℚ := 0
  final_pnl_pct : ℚ := 0
  deriving DecidableEq, Repr

structure SignalRecord where
  id : String
  signal_type : String
  entry_price : ℚ
  suggested_stop : ℚ
  suggested_target : ℚ
  outcome : Option SignalOutcome := none
  status : String := "PENDING"
  deriving DecidableEq, Repr

/-- The snapshot dictionary key `f"{minutes_elapsed}min"`. -/
def intervalKey (minutes_elapsed : ℤ) : String :=
  toString minutes_elapsed ++ "min"

/-- Python dict assignment on an association list: replace in place if the
key exists, else append. -/
def dictInsert (k : String) (v : PriceSnapshot) :
    List (String × PriceSnapshot) → List (String × PriceSnapshot)
  | [] => [(k, v)]
  | (k0, v0) :: rest =>
    if k0 = k then (k, v) :: rest else (k0, v0) :: dictInsert k v rest

/-- `SignalLogger.find_signal`: first record with the given id. -/
def findSignal (signals : List SignalRecord) (signal_id : String) :
    Option SignalRecord :=
  signals.find? (fun s => s.id == signal_id)

/-- In-place mutation of the found record: replace the first record with
this id. -/
def replaceFirst (signals : List SignalRecord) (signal_id : String)
    (s' : SignalRecord) : List SignalRecord :=
  match signals with
  | [] => []
  | t :: rest =>
    if t.id = signal_id then s' :: rest
    else t :: replaceFirst rest signal_id s'

/-- The body of `SignalLogger.update_outcome` applied to the found record:
compute PnL, create the outcome if absent, insert the snapshot keyed by
`{minutes}min`, update max profit / drawdown, set `target_hit` /
`stop_hit`, refresh `tracked_until`, and set status to TRACKING. -/
def updateRecord (s : SignalRecord) (current_price : ℚ)
    (minutes_elapsed : ℤ) (now : String) : SignalRecord :=
  let pnl :=
    if s.signal_type = "LONG" then current_price - s.entry_price
    else s.entry_price - current_price
  let pnl_pct := pnl / s.entry_price * 100
  let o0 := s.outcome.getD { tracked_until := now }
  let key := intervalKey minutes_elapsed
  let o1 := { o0 with
    snapshots := dictInsert key ⟨current_price, pnl, pnl_pct, now⟩ o0.snapshots }
  let o2 :=
    if pnl > o1.max_profit then
      { o1 with max_profit := pnl, max_profit_pct := pnl_pct, peak_time := key }
    else o1
  let o3 :=
    if pnl < o2.max_drawdown then
      { o2 with max_drawdown := pnl, max_drawdown_pct := pnl_pct }
    else o2
  let o4 :=
    if s.signal_type = "LONG" then
      let oA :=
        if current_price ≥ s.suggested_target ∧ ¬ o3.target_hit then
          { o3 with target_hit := true, target_price := some current_price,
                    target_time := some key }
        else o3
      if current_price ≤ s.suggested_stop then { oA with stop_hit := true }
      else oA
    else
      let oA :=
        if current_price ≤ s.suggested_target ∧ ¬ o3.target_hit then
          { o3 with target_hit := true, target_price := some current_price,
                    target_time := some key }
        else o3
      if current_price ≥ s.suggested_stop then { oA with stop_hit := true }
      else oA
  let o5 := { o4 with tracked_until := now }
  { s with outcome := some o5, status := "TRACKING" }

/-- `SignalLogger.update_outcome` over the persisted store (`self.signals`
plus `self._save_history()`): returns the new store and the updated
record. -/
def updateOutcome (signals : List SignalRecord) (signal_id : String)
    (current_price : ℚ) (minutes_elapsed : ℤ) (now : String) :
    List SignalRecord × Option SignalRecord :=
  match findSignal signals signal_id with
  | none => (signals, none)
  | some s =>
    let s' := updateRecord s current_price minutes_elapsed now
    (replaceFirst signals signal_id s', some s')

/-- A record that already carries a snapshot at 30 minutes. -/
def rec30 : SignalRecord :=
  { id := "S1", signal_type := "LONG", entry_price := 2000,
    suggested_stop := 1990, suggested_target := 2010,
    outcome := some
      { tracked_until := "t0",
        snapshots := [("30min", ⟨2001, 1, 1/20, "t0"⟩)],
        max_profit := 1, max_profit_pct := 1/20 },
    status := "TRACKING" }

/-- `update_outcome` always sets the record status to TRACKING. -/
theorem updateRecord_status (s : SignalRecord) (p : ℚ) (m : ℤ) (now : String) :
    (updateRecord s p m now).status = "TRACKING" := rfl

/-- `update_outcome` always stores the new snapshot, keyed by
`{minutes}min`, in the (possibly fresh) outcome, no matter what snapshots
were recorded before. -/
theorem updateRecord_snapshots (s : SignalRecord) (p : ℚ) (m : ℤ)
    (now : String) :
    ∃ o, (updateRecord s p m now).outcome = some o ∧
      o.snapshots = dictInsert (intervalKey m)
        ⟨p, (if s.signal_type = "LONG" then p - s.entry_price
             else s.entry_price - p),
          (if s.signal_type = "LONG" then p - s.entry_price
           else s.entry_price - p) / s.entry_price * 100, now⟩
        ((s.outcome.getD { tracked_until := now }).snapshots) := by
  refine ⟨_, rfl, ?_⟩
  dsimp only
  split_ifs <;> rfl

/-- Looking up the just-inserted key finds the just-inserted value. -/
theorem lookup_dictInsert (k : String) (v : PriceSnapshot)
    (l : List (String × PriceSnapshot)) :
    (dictInsert k v l).lookup k = some v := by
  induction l with
  | nil => simp [dictInsert, List.lookup]
  | cons hd tl ih =>
    obtain ⟨k0, v0⟩ := hd
    unfold dictInsert
    by_cases hk : k0 = k
    · rw [if_pos hk]
      simp [List.lookup]
    · rw [if_neg hk]
      have hbeq : (k == k0) = false := by simp [Ne.symm hk]
      simpa [List.lookup, hbeq] using ih

end SignalLogger


/-- C9 (counterexample): calling `update_outcome` with `minutes_elapsed =
10` on a signal that already has a snapshot at 30 minutes is NOT rejected:
the record is returned updated (TRACKING, with a `10min` snapshot) and the
persisted store is mutated, contradicting the claimed fatal,
mutation-free outcome. -/
theorem c9_non_monotone_update_mutates :
    (SignalLogger.updateOutcome [SignalLogger.rec30] "S1" 2002 10 "t1").1 ≠
      [SignalLogger.rec30] ∧
    (∃ s, (SignalLogger.updateOutcome [SignalLogger.rec30] "S1" 2002 10 "t1").2 =
        some s ∧ s.status = "TRACKING" ∧
        (∃ o, s.outcome = some o ∧
          o.snapshots.lookup "10min" =
            some ⟨2002, 2, 1/10, "t1"⟩)) := by
  have hfind : SignalLogger.findSignal [SignalLogger.rec30] "S1" =
      some SignalLogger.rec30 := by
    simp [SignalLogger.findSignal, SignalLogger.rec30]
  have hsnap := SignalLogger.updateRecord_snapshots SignalLogger.rec30 2002 10 "t1"
  obtain ⟨o, ho, hos⟩ := hsnap
  have hpnl : (if SignalLogger.rec30.signal_type = "LONG"
      then (2002 : ℚ) - SignalLogger.rec30.entry_price
      else SignalLogger.rec30.entry_price - 2002) = 2 := by
    norm_num [SignalLogger.rec30]
  have hkey : SignalLogger.intervalKey 10 = "10min" := rfl
  have hsnaps : o.snapshots =
      [("30min", ⟨2001, 1, 1/20, "t0"⟩), ("10min", ⟨2002, 2, 1/10, "t1"⟩)] := by
    rw [hos, hpnl, hkey]
    norm_num [SignalLogger.rec30, SignalLogger.dictInsert]
    decide
  constructor
  · -- the store is mutated: the updated record differs in its snapshots
    simp only [SignalLogger.updateOutcome, hfind]
    simp only [SignalLogger.replaceFirst, SignalLogger.rec30, if_pos]
    intro hcontra
    have heq : SignalLogger.updateRecord SignalLogger.rec30 2002 10 "t1" =
        SignalLogger.rec30 := by
      have := List.head_eq_of_cons_eq hcontra
      exact this
    have hlen : o.snapshots.length =
        ((SignalLogger.rec30.outcome.getD
          { tracked_until := "t1" }).snapshots).length := by
      rw [heq] at ho
      have : some o = SignalLogger.rec30.outcome := ho.symm
      simp [SignalLogger.rec30] at this
      rw [this]
      simp [SignalLogger.rec30]
    rw [hsnaps] at hlen
    simp [SignalLogger.rec30] at hlen
  · refine ⟨_, ?_, SignalLogger.updateRecord_status _ _ _ _, o, ho, ?_⟩
    · simp only [SignalLogger.updateOutcome, hfind]
    · rw [hsnaps]
      simp [List.lookup]

/-- C9 (amended): `update_outcome` enforces no monotonicity precondition:
for ANY `minutes_elapsed` — in particular one smaller than an already
recorded snapshot — a call on an existing signal id succeeds, stores the
new snapshot keyed `{minutes}min`, sets the record status to TRACKING, and
writes the updated record back into the persisted store. -/
theorem c9_update_outcome_amended (signals : List SignalLogger.SignalRecord)
    (signal_id : String) (p : ℚ) (m : ℤ) (now : String)
    (s : SignalLogger.SignalRecord)
    (hfind : SignalLogger.findSignal signals signal_id = some s) :
    (SignalLogger.updateOutcome signals signal_id p m now).2 =
      some (SignalLogger.updateRecord s p m now) ∧
    (SignalLogger.updateOutcome signals signal_id p m now).1 =
      SignalLogger.replaceFirst signals signal_id
        (SignalLogger.updateRecord s p m now) ∧
    (SignalLogger.updateRecord s p m now).status = "TRACKING" ∧
    (∃ o, (SignalLogger.updateRecord s p m now).outcome = some o ∧
      o.snapshots.lookup (SignalLogger.intervalKey m) =
        some ⟨p, (if s.signal_type = "LONG" then p - s.entry_price
                  else s.entry_price - p),
          (if s.signal_type = "LONG" then p - s.entry_price
           else s.entry_price - p) / s.entry_price * 100, now⟩) := by
  refine ⟨?_, ?_, SignalLogger.updateRecord_status _ _ _ _, ?_⟩
  · simp only [SignalLogger.updateOutcome, hfind]
  · simp only [SignalLogger.updateOutcome, hfind]
  · obtain ⟨o, ho, hos⟩ := SignalLogger.updateRecord_snapshots s p m now
    exact ⟨o, ho, by rw [hos, SignalLogger.lookup_dictInsert]⟩

/-- Witness for C9 (amended) at the concrete non-monotone call: minutes 10
after a recorded snapshot at 30 minutes. -/
theorem c9_update_outcome_amended_witness :
    (SignalLogger.updateOutcome [SignalLogger.rec30] "S1" 2002 10 "t1").2 =
      some (SignalLogger.updateRecord SignalLogger.rec30 2002 10 "t1") ∧
    (SignalLogger.updateRecord SignalLogger.rec30 2002 10 "t1").status =
      "TRACKING" := by
  have h := c9_update_outcome_amended [SignalLogger.rec30] "S1" 2002 10 "t1"
    SignalLogger.rec30
    (by simp [SignalLogger.findSignal, SignalLogger.rec30])
  exact ⟨h.1, h.2.2.1⟩

/-! ## Learning subsystem: the common outcome-history record

`PatternMiner.load_historical_data` produces dictionaries with keys
`timestamp`, `price`, `rsi`, `stoch_k`, `stoch_d`, `adx`, `atr`, `regime`,
`session`, `direction`, `outcome`, `pnl`; the Miner, Evolver and Tuner all
consume these.  Numeric fields stay optional (`d.get(name, default)`
becomes a named lookup with `Option.getD`). -/

namespace Learning

structure Datum where
  timestamp : String
  price : ℚ
  rsi : Option ℚ
  stoch_k : Option ℚ
  stoch_d : Option ℚ
  adx : Option ℚ
  atr : Option ℚ
  atr_percentile : Option ℚ
  regime : String
  session : String
  direction : String
  outcome : String
  pnl : ℚ
  deriving DecidableEq, Repr

/-- `d.get(name)` restricted to the numeric indicator keys a condition can
name; any other key (or an absent value) yields `none`, so that
`d.get(name, 50)` becomes `(d.getInd name).getD 50`. -/
def Datum.getInd (d : Datum) (name : String) : Option ℚ :=
  if name = "rsi" then d.rsi
  else if name = "stoch_k" then d.stoch_k
  else if name = "stoch_d" then d.stoch_d
  else if name = "adx" then d.adx
  else if name = "atr" then d.atr
  else if name = "atr_percentile" then d.atr_percentile
  else none

end Learning

/-! ## Rule Evolver: `evaluate_fitness`

From `learning/rule_evolution.py`.  `TradingRule` mirrors the dataclass
(the wall-clock `created_at` omitted).  `evaluate_fitness` both returns the
fitness and mutates the rule's `win_rate` / `profit_factor` /
`total_trades` / `fitness` fields, so it is modelled as returning the
updated rule with the fitness; when fewer than 10 rows match, the rule is
returned untouched with fitness 0, as in the source. -/

namespace RuleEvolution

open Learning

structure Cond where
  operator : String
  value : ℚ
  deriving DecidableEq, Repr

structure TradingRule where
  rule_id : String
  name : String
  generation : ℕ
  conditions : List (String × Cond)
  regime_filter : Option String := none
  session_filter : Option String := none
  direction : String := "LONG"
  weight : ℕ := 5
  win_rate : ℚ := 0
  profit_factor : ℚ := 0
  total_trades : ℕ := 0
  fitness : ℚ := 0
  parent_ids : List String := []
  mutations : List String := []
  deriving DecidableEq, Repr

/-- The sequential condition filters of `evaluate_fitness` (operators `<`,
`>` and `==`; any other operator leaves the list unchanged, as the
`if/elif` chain does). -/
def applyConds (conds : List (String × Cond)) (l : List Datum) :
    List Datum :=
  conds.foldl (fun acc c =>
    if c.2.operator = "<" then
      acc.filter (fun d => decide ((d.getInd c.1).getD 50 < c.2.value))
    else if c.2.operator = ">" then
      acc.filter (fun d => decide ((d.getInd c.1).getD 50 > c.2.value))
    else if c.2.operator = "==" then
      acc.filter (fun d => d.getInd c.1 = some c.2.value)
    else acc) l

/-- The full filter pipeline of `evaluate_fitness`: regime filter, session
filter, condition filters, then the direction match.  (The Python truthy
test `if rule.regime_filter:` is `Option.isSome` here; the source only ever
stores non-empty names or `None`.) -/
def ruleFiltered (rule : TradingRule) (data : List Datum) : List Datum :=
  let f0 := match rule.regime_filter with
    | some r => data.filter (fun d => d.regime == r)
    | none => data
  let f1 := match rule.session_filter with
    | some s => f0.filter (fun d => d.session == s)
    | none => f0
  let f2 := applyConds rule.conditions f1
  f2.filter (fun d => d.direction == rule.direction)

/-- `RuleEvolution.evaluate_fitness`. -/
def evaluateFitness (rule : TradingRule) (data : List Datum) :
    TradingRule × ℚ :=
  let filtered := ruleFiltered rule data
  if filtered.length < 10 then (rule, 0)
  else
    let wins := filtered.filter (fun d => d.outcome == "WIN")
    let losses := filtered.filter (fun d => d.outcome == "LOSS")
    let win_rate := (wins.length : ℚ) / filtered.length * 100
    let total_profit := if wins.isEmpty then 0 else (wins.map Datum.pnl).sum
    let total_loss := if losses.isEmpty then 1/100 else |(losses.map Datum.pnl).sum|
    let profit_factor := total_profit / total_loss
    let fitness0 := (win_rate - 50) * 2 + (profit_factor - 1) * 20 +
      min ((filtered.length : ℚ) / 5) 20
    let fitness1 := if filtered.length < 20 then fitness0 * (1/2) else fitness0
    let fitness := max 0 fitness1
    ({ rule with win_rate := win_rate, profit_factor := profit_factor,
                 total_trades := filtered.length, fitness := fitness },
     fitness)

theorem isEmpty_congr_of_length {α β : Type} {l : List α} {l' : List β}
    (h : l.length = l'.length) : l.isEmpty = l'.isEmpty := by
  cases l <;> cases l' <;> simp_all

theorem ruleFiltered_perm (rule : TradingRule) {data data' : List Datum}
    (hp : data.Perm data') :
    (ruleFiltered rule data).Perm (ruleFiltered rule data') := by
  have h01 : ∀ {l l' : List Datum}, l.Perm l' →
      (applyConds rule.conditions l).Perm (applyConds rule.conditions l') := by
    intro l l' hll
    induction rule.conditions generalizing l l' with
    | nil => exact hll
    | cons c cs ih =>
      simp only [applyConds, List.foldl_cons] at *
      apply ih
      split_ifs <;> first | exact hll.filter _ | exact hll
  unfold ruleFiltered
  dsimp only
  apply List.Perm.filter
  apply h01
  cases rule.session_filter <;> cases rule.regime_filter <;>
    simp only [] <;>
    first
      | exact hp
      | exact hp.filter _
      | exact (hp.filter _).filter _

end RuleEvolution

/-- C10: Rule-Evolver fitness is permutation-invariant — `evaluate_fitness`
returns the same fitness and sets the same `win_rate`, `profit_factor` and
`total_trades` on the rule for any reordering of the outcome history. -/
theorem c10_fitness_permutation_invariant (rule : RuleEvolution.TradingRule)
    (data data' : List Learning.Datum) (hp : data.Perm data') :
    RuleEvolution.evaluateFitness rule data =
      RuleEvolution.evaluateFitness rule data' := by
  have hperm := RuleEvolution.ruleFiltered_perm rule hp
  have hlen : (RuleEvolution.ruleFiltered rule data).length =
      (RuleEvolution.ruleFiltered rule data').length := hperm.length_eq
  have hflen : ∀ p : Learning.Datum → Bool,
      ((RuleEvolution.ruleFiltered rule data).filter p).length =
      ((RuleEvolution.ruleFiltered rule data').filter p).length :=
    fun p => (hperm.filter p).length_eq
  have hfsum : ∀ p : Learning.Datum → Bool,
      (((RuleEvolution.ruleFiltered rule data).filter p).map
        Learning.Datum.pnl).sum =
      (((RuleEvolution.ruleFiltered rule data').filter p).map
        Learning.Datum.pnl).sum :=
    fun p => ((hperm.filter p).map _).sum_eq
  have hfemp : ∀ p : Learning.Datum → Bool,
      ((RuleEvolution.ruleFiltered rule data).filter p).isEmpty =
      ((RuleEvolution.ruleFiltered rule data').filter p).isEmpty :=
    fun p => RuleEvolution.isEmpty_congr_of_length (hflen p)
  unfold RuleEvolution.evaluateFitness
  simp only [hlen, hflen, hfsum, hfemp]

/-- A winning outcome row for the permutation witness. -/
def datumW : Learning.Datum :=
  { timestamp := "2025-01-01", price := 2650, rsi := some 35,
    stoch_k := some 20, stoch_d := some 22, adx := some 30, atr := some 15,
    atr_percentile := none, regime := "STRONG_UPTREND", session := "london",
    direction := "LONG", outcome := "WIN", pnl := 5 }

/-- A losing outcome row for the permutation witness. -/
def datumL : Learning.Datum :=
  { timestamp := "2025-01-02", price := 2648, rsi := some 60,
    stoch_k := some 80, stoch_d := some 78, adx := some 18, atr := some 12,
    atr_percentile := none, regime := "RANGING", session := "asia",
    direction := "LONG", outcome := "LOSS", pnl := -3 }

/-- A ten-row outcome history for the permutation witness. -/
def permData : List Learning.Datum :=
  [datumW, datumW, datumW, datumW, datumW, datumW, datumL, datumL, datumL,
   datumL]

/-- An unconditioned LONG rule for the permutation witness. -/
def permRule : RuleEvolution.TradingRule :=
  { rule_id := "GEN0_R000", name := "witness rule", generation := 0,
    conditions := [] }

/-- Witness for C10: evaluating the rule on the ten-row history and on its
reversal yields identical results. -/
theorem c10_fitness_permutation_invariant_witness :
    RuleEvolution.evaluateFitness permRule permData =
      RuleEvolution.evaluateFitness permRule permData.reverse :=
  c10_fitness_permutation_invariant permRule permData permData.reverse
    (List.reverse_perm permData).symm

/-! ## Auto-Tuner: `evaluate_config`

From `learning/auto_tuner.py`.  `TuningConfig` keeps the nine scalar
fields `evaluate_config` can read (the per-regime / per-session adjustment
maps are not read by it).  The `min_score` local in the source is computed
but never used and is not modelled.  Note the fitness weights profit
factor by 15, not by the Evolver's 20, and applies no small-sample
halving. -/

namespace AutoTuner

open Learning

structure TuningConfig where
  stoch_oversold : ℚ := 20
  stoch_overbought : ℚ := 80
  rsi_oversold : ℚ := 30
  rsi_overbought : ℚ := 70
  min_score_long : ℚ := 60
  min_score_short : ℚ := 60
  atr_stop_mult : ℚ := 2
  atr_tp_mult : ℚ := 3
  adx_min_trend : ℚ := 25
  deriving DecidableEq, Repr

/-- The `TuningConfig()` defaults. -/
def defaultTuning : TuningConfig := {}

structure EvalResult where
  win_rate : ℚ
  profit_factor : ℚ
  trades : ℕ
  fitness : ℚ
  deriving DecidableEq, Repr

/-- The per-row admission test inside `evaluate_config`
(`stoch_ok or rsi_ok or adx_ok`; a `direction` other than LONG — including
`None` — takes the SHORT-side thresholds, as `direction == "LONG"` does). -/
def tradeTaken (config : TuningConfig) (direction : Option String)
    (d : Datum) : Bool :=
  let stoch := d.stoch_k.getD 50
  let rsi := d.rsi.getD 50
  let adx := d.adx.getD 25
  let stoch_ok : Bool :=
    if direction = some "LONG" then decide (stoch < config.stoch_oversold)
    else decide (stoch > config.stoch_overbought)
  let rsi_ok : Bool :=
    if direction = some "LONG" then decide (rsi < config.rsi_overbought)
    else decide (rsi > config.rsi_oversold)
  let adx_ok : Bool := decide (adx ≥ config.adx_min_trend)
  stoch_ok || rsi_ok || adx_ok

/-- `AutoTuner.evaluate_config`: optional regime / session / direction
filters, the admission test, then win-rate, profit-factor (0 when no
losses) and the tuner's own fitness formula. -/
def evaluateConfig (config : TuningConfig) (data : List Datum)
    (direction regime session : Option String) : EvalResult :=
  let f0 : List Datum := match regime with
    | some r => data.filter (fun d => decide (d.regime = r))
    | none => data
  let f1 : List Datum := match session with
    | some s => f0.filter (fun d => decide (d.session = s))
    | none => f0
  let f2 : List Datum := match direction with
    | some dir => f1.filter (fun d => decide (d.direction = dir))
    | none => f1
  if f2.length < 20 then ⟨0, 0, 0, 0⟩
  else
    let counted := f2.filter (tradeTaken config direction)
    let wins := counted.filter (fun d => decide (d.outcome = "WIN"))
    let losses := counted.filter (fun d => !(decide (d.outcome = "WIN")))
    let total_trades : ℕ := wins.length + losses.length
    if total_trades < 10 then ⟨0, 0, 0, 0⟩
    else
      let win_rate := (wins.length : ℚ) / total_trades * 100
      let total_profit := (wins.map (fun d => |d.pnl|)).sum
      let total_loss := (losses.map (fun d => |d.pnl|)).sum
      let profit_factor := if total_loss > 0 then total_profit / total_loss
        else 0
      let fitness := (win_rate - 50) * 2 + (profit_factor - 1) * 15 +
        min ((total_trades : ℚ) / 5) 20
      ⟨win_rate, profit_factor, total_trades, fitness⟩

/-- The Rule Evolver fitness formula as the spec's refinement claim states
it: `(win_rate − 50)·2 + (profit_factor − 1)·20 + min(matches/5, 20)`,
halved when `matches < 20` (what `RuleEvolution.evaluate_fitness` computes
before its final `max(0, ·)`). -/
def evolverFitnessFormula (win_rate profit_factor : ℚ) (nMatches : ℕ) : ℚ :=
  let base := (win_rate - 50) * 2 + (profit_factor - 1) * 20 +
    min ((nMatches : ℚ) / 5) 20
  if nMatches < 20 then base * (1/2) else base

end AutoTuner

/-- Twenty LONG outcome rows (12 wins at +5, 8 losses at −3) on which the
tuner admits every trade. -/
def tunerData : List Learning.Datum :=
  [datumW, datumW, datumW, datumW, datumW, datumW, datumW, datumW, datumW,
   datumW, datumW, datumW, datumL, datumL, datumL, datumL, datumL, datumL,
   datumL, datumL]

/-- C5 (counterexample): on the twenty-row history with the default config,
`evaluate_config` computes win_rate 60, profit_factor 5/2, 20 trades and
fitness `(60−50)·2 + (5/2−1)·15 + 4 = 93/2`, while the Evolver formula
claimed by the spec gives `(60−50)·2 + (5/2−1)·20 + 4 = 54`. -/
theorem c5_tuner_fitness_counterexample :
    AutoTuner.evaluateConfig AutoTuner.defaultTuning tunerData
      (some "LONG") none none = ⟨60, 5/2, 20, 93/2⟩ ∧
    AutoTuner.evolverFitnessFormula 60 (5/2) 20 = 54 ∧
    (93 : ℚ) / 2 ≠ 54 := by
  refine ⟨?_, ?_, by norm_num⟩
  · norm_num [AutoTuner.evaluateConfig, AutoTuner.tradeTaken, tunerData,
      datumW, datumL, List.filter_cons, List.filter_nil,
      AutoTuner.defaultTuning, show ¬("LOSS" = "WIN") by decide]
  · norm_num [AutoTuner.evolverFitnessFormula]

/-- C5 (amended): whenever `evaluate_config` admits any trades, its fitness
is `(win_rate − 50)·2 + (profit_factor − 1)·15 + min(trades/5, 20)` over
the admitted trades — the profit-factor weight is 15, not the Evolver's
20, and no small-sample halving is applied. -/
theorem c5_tuner_fitness_amended (config : AutoTuner.TuningConfig)
    (data : List Learning.Datum) (direction regime session : Option String)
    (h : 0 < (AutoTuner.evaluateConfig config data direction regime
      session).trades) :
    (AutoTuner.evaluateConfig config data direction regime session).fitness =
      ((AutoTuner.evaluateConfig config data direction regime
          session).win_rate - 50) * 2 +
      ((AutoTuner.evaluateConfig config data direction regime
          session).profit_factor - 1) * 15 +
      min (((AutoTuner.evaluateConfig config data direction regime
          session).trades : ℚ) / 5) 20 := by
  unfold AutoTuner.evaluateConfig at h ⊢
  dsimp only at h ⊢
  split_ifs at h ⊢
  · dsimp only at h
    exact absurd h (lt_irrefl 0)
  · dsimp only at h
    exact absurd h (lt_irrefl 0)
  · rfl
  · rfl

/-- Witness for C5 (amended) on the twenty-row history: 20 trades are
admitted and the fitness matches the 15-weight formula. -/
theorem c5_tuner_fitness_amended_witness :
    0 < (AutoTuner.evaluateConfig AutoTuner.defaultTuning tunerData
      (some "LONG") none none).trades ∧
    (AutoTuner.evaluateConfig AutoTuner.defaultTuning tunerData
      (some "LONG") none none).fitness =
      ((AutoTuner.evaluateConfig AutoTuner.defaultTuning tunerData
          (some "LONG") none none).win_rate - 50) * 2 +
      ((AutoTuner.evaluateConfig AutoTuner.defaultTuning tunerData
          (some "LONG") none none).profit_factor - 1) * 15 +
      min (((AutoTuner.evaluateConfig AutoTuner.defaultTuning tunerData
          (some "LONG") none none).trades : ℚ) / 5) 20 := by
  have h0 : 0 < (AutoTuner.evaluateConfig AutoTuner.defaultTuning tunerData
      (some "LONG") none none).trades := by
    norm_num [AutoTuner.evaluateConfig, AutoTuner.tradeTaken, tunerData,
      datumW, datumL, List.filter_cons, List.filter_nil,
      AutoTuner.defaultTuning, show ¬("LOSS" = "WIN") by decide]
  exact ⟨h0, c5_tuner_fitness_amended AutoTuner.defaultTuning tunerData
    (some "LONG") none none h0⟩

/-! ## Signal Generator: scoring and risk parameters

From `analysis/signals.py`.  `SignalDfView` carries what `generate_signal`
and the criteria checks read from the data frame: the latest Close, the
optional latest ATR (`latest.get('ATR', price * 0.02)`), the latest and
previous EMA_9/EMA_21 when both columns exist, and the latest Stoch_K when
its column exists.  The display-only `reasons` strings and the timestamp
are not modelled. -/

inductive SignalType
  | LONG_ENTRY | SHORT_ENTRY | LONG_EXIT | SHORT_EXIT | NO_SIGNAL
  deriving DecidableEq, Repr

inductive SignalStrength
  | STRONG | MEDIUM | WEAK | NO_SIGNAL
  deriving DecidableEq, Repr

namespace Signals

structure PatternAnalysis where
  bullish_success_rate : ℚ
  bearish_success_rate : ℚ
  deriving DecidableEq, Repr

structure SentimentReport where
  sentiment : MarketSentiment
  deriving DecidableEq, Repr

structure MarketRegime where
  trend : TrendState
  combined_regime : String
  deriving DecidableEq, Repr

/-- Latest and previous EMA_9 / EMA_21 values (`iloc[-2]` falls back to the
latest value when the frame has a single row, which the caller of this view
accounts for). -/
structure EmaView where
  ema9 : ℚ
  ema21 : ℚ
  ema9_prev : ℚ
  ema21_prev : ℚ
  deriving DecidableEq, Repr

structure SignalDfView where
  close : ℚ
  atr : Option ℚ
  emaCols : Option EmaView
  stoch : Option ℚ
  deriving DecidableEq, Repr

structure SignalGenerator where
  min_criteria_strong : ℤ := 4
  min_criteria_medium : ℤ := 3
  min_criteria_weak : ℤ := 2
  min_pattern_success : ℚ := 60
  atr_stop_multiplier : ℚ := 2
  atr_tp_multiplier : ℚ := 3
  deriving DecidableEq, Repr

/-- The `SignalGenerator()` defaults. -/
def defaultGen : SignalGenerator := {}

open TrendState MarketSentiment

/-- `SignalGenerator._check_long_criteria`, returning `int(criteria_met)`
(the 0.5-step sum floored to an integer). -/
def checkLongCriteria (gen : SignalGenerator) (df : SignalDfView)
    (regime : MarketRegime) (pattern : PatternAnalysis)
    (sentiment : SentimentReport) : ℤ :=
  let c1 : ℚ :=
    if regime.trend = STRONG_UPTREND ∨ regime.trend = WEAK_UPTREND then 1
    else 0
  let c2 : ℚ := match df.emaCols with
    | some e =>
      if e.ema9_prev ≤ e.ema21_prev ∧ e.ema9 > e.ema21 then 1
      else if e.ema9 > e.ema21 then 1/2
      else 0
    | none => 0
  let c3 : ℚ := match df.stoch with
    | some k => if k < 30 then 1 else if k < 50 then 1/2 else 0
    | none => 0
  let c4 : ℚ :=
    if pattern.bullish_success_rate > gen.min_pattern_success then 1 else 0
  let c5 : ℚ :=
    if sentiment.sentiment = RISK_ON then 1
    else if sentiment.sentiment = NEUTRAL then 1/2
    else 0
  ⌊c1 + c2 + c3 + c4 + c5⌋

/-- `SignalGenerator._check_short_criteria`. -/
def checkShortCriteria (gen : SignalGenerator) (df : SignalDfView)
    (regime : MarketRegime) (pattern : PatternAnalysis)
    (sentiment : SentimentReport) : ℤ :=
  let c1 : ℚ :=
    if regime.trend = STRONG_DOWNTREND ∨ regime.trend = WEAK_DOWNTREND then 1
    else 0
  let c2 : ℚ := match df.emaCols with
    | some e =>
      if e.ema9_prev ≥ e.ema21_prev ∧ e.ema9 < e.ema21 then 1
      else if e.ema9 < e.ema21 then 1/2
      else 0
    | none => 0
  let c3 : ℚ := match df.stoch with
    | some k => if k > 70 then 1 else if k > 50 then 1/2 else 0
    | none => 0
  let c4 : ℚ :=
    if pattern.bearish_success_rate > gen.min_pattern_success then 1 else 0
  let c5 : ℚ :=
    if sentiment.sentiment = RISK_OFF then 1
    else if sentiment.sentiment = NEUTRAL then 1/2
    else 0
  ⌊c1 + c2 + c3 + c4 + c5⌋

/-- `SignalGenerator._determine_strength`. -/
def determineStrength (gen : SignalGenerator) (criteria_met : ℤ) :
    SignalStrength :=
  if criteria_met ≥ gen.min_criteria_strong then SignalStrength.STRONG
  else if criteria_met ≥ gen.min_criteria_medium then SignalStrength.MEDIUM
  else if criteria_met ≥ gen.min_criteria_weak then SignalStrength.WEAK
  else SignalStrength.NO_SIGNAL

/-- `SignalGenerator._calculate_risk_params`, returning
`(stop_loss, take_profit, risk_reward_ratio)`. -/
def calculateRiskParams (gen : SignalGenerator) (price atr : ℚ)
    (is_long : Bool) : ℚ × ℚ × ℚ :=
  let stop_loss :=
    if is_long then price - atr * gen.atr_stop_multiplier
    else price + atr * gen.atr_stop_multiplier
  let take_profit :=
    if is_long then price + atr * gen.atr_tp_multiplier
    else price - atr * gen.atr_tp_multiplier
  let risk := |price - stop_loss|
  let reward := |take_profit - price|
  let rr_ratio := if risk > 0 then reward / risk else 0
  (stop_loss, take_profit, rr_ratio)

structure TradingSignal where
  signal_type : SignalType
  strength : SignalStrength
  price : ℚ
  regime : String
  pattern_success_rate : ℚ
  sentiment : MarketSentiment
  criteria_met : ℤ
  criteria_total : ℕ := 5
  suggested_stop_loss : Option ℚ := none
  suggested_take_profit : Option ℚ := none
  risk_reward_ratio : Option ℚ := none
  deriving DecidableEq, Repr

/-- `SignalGenerator.generate_signal`. -/
def generateSignal (gen : SignalGenerator) (df : SignalDfView)
    (regime : MarketRegime) (pattern : PatternAnalysis)
    (sentiment : SentimentReport) : TradingSignal :=
  let price := df.close
  let atr := df.atr.getD (price * (2/100))
  let long_criteria := checkLongCriteria gen df regime pattern sentiment
  let long_strength := determineStrength gen long_criteria
  let short_criteria := checkShortCriteria gen df regime pattern sentiment
  let short_strength := determineStrength gen short_criteria
  if long_strength ≠ SignalStrength.NO_SIGNAL ∧
      long_criteria ≥ short_criteria then
    let rp := calculateRiskParams gen price atr true
    { signal_type := SignalType.LONG_ENTRY, strength := long_strength,
      price := price, regime := regime.combined_regime,
      pattern_success_rate := pattern.bullish_success_rate,
      sentiment := sentiment.sentiment, criteria_met := long_criteria,
      suggested_stop_loss := some rp.1,
      suggested_take_profit := some rp.2.1,
      risk_reward_ratio := some rp.2.2 }
  else if short_strength ≠ SignalStrength.NO_SIGNAL then
    let rp := calculateRiskParams gen price atr false
    { signal_type := SignalType.SHORT_ENTRY, strength := short_strength,
      price := price, regime := regime.combined_regime,
      pattern_success_rate := pattern.bearish_success_rate,
      sentiment := sentiment.sentiment, criteria_met := short_criteria,
      suggested_stop_loss := some rp.1,
      suggested_take_profit := some rp.2.1,
      risk_reward_ratio := some rp.2.2 }
  else
    { signal_type := SignalType.NO_SIGNAL,
      strength := SignalStrength.NO_SIGNAL, price := price,
      regime := regime.combined_regime, pattern_success_rate := 50,
      sentiment := sentiment.sentiment,
      criteria_met := max long_criteria short_criteria }

/-- The effective ATR used by `generate_signal`. -/
def effAtr (df : SignalDfView) : ℚ := df.atr.getD (df.close * (2/100))

/-- With a positive ATR and positive multipliers, the LONG risk parameters
sit on the correct sides of the entry and the risk/reward ratio is exactly
the multiplier quotient. -/
theorem calculateRiskParams_long (gen : SignalGenerator) (price atr : ℚ)
    (h1 : 0 < atr) (h2 : 0 < gen.atr_stop_multiplier)
    (h3 : 0 < gen.atr_tp_multiplier) :
    calculateRiskParams gen price atr true =
      (price - atr * gen.atr_stop_multiplier,
       price + atr * gen.atr_tp_multiplier,
       gen.atr_tp_multiplier / gen.atr_stop_multiplier) := by
  unfold calculateRiskParams
  have hs : 0 < atr * gen.atr_stop_multiplier := mul_pos h1 h2
  have ht : 0 < atr * gen.atr_tp_multiplier := mul_pos h1 h3
  have hrisk : |price - (price - atr * gen.atr_stop_multiplier)| =
      atr * gen.atr_stop_multiplier := by
    rw [show price - (price - atr * gen.atr_stop_multiplier) =
      atr * gen.atr_stop_multiplier by ring]
    exact abs_of_pos hs
  have hreward : |price + atr * gen.atr_tp_multiplier - price| =
      atr * gen.atr_tp_multiplier := by
    rw [show price + atr * gen.atr_tp_multiplier - price =
      atr * gen.atr_tp_multiplier by ring]
    exact abs_of_pos ht
  simp only [if_pos, hrisk, hreward]
  rw [if_pos hs]
  rw [mul_div_mul_left _ _ (ne_of_gt h1)]

/-- Symmetric SHORT version. -/
theorem calculateRiskParams_short (gen : SignalGenerator) (price atr : ℚ)
    (h1 : 0 < atr) (h2 : 0 < gen.atr_stop_multiplier)
    (h3 : 0 < gen.atr_tp_multiplier) :
    calculateRiskParams gen price atr false =
      (price + atr * gen.atr_stop_multiplier,
       price - atr * gen.atr_tp_multiplier,
       gen.atr_tp_multiplier / gen.atr_stop_multiplier) := by
  unfold calculateRiskParams
  have hs : 0 < atr * gen.atr_stop_multiplier := mul_pos h1 h2
  have ht : 0 < atr * gen.atr_tp_multiplier := mul_pos h1 h3
  have hrisk : |price - (price + atr * gen.atr_stop_multiplier)| =
      atr * gen.atr_stop_multiplier := by
    rw [show price - (price + atr * gen.atr_stop_multiplier) =
      -(atr * gen.atr_stop_multiplier) by ring]
    rw [abs_neg]
    exact abs_of_pos hs
  have hreward : |price - atr * gen.atr_tp_multiplier - price| =
      atr * gen.atr_tp_multiplier := by
    rw [show price - atr * gen.atr_tp_multiplier - price =
      -(atr * gen.atr_tp_multiplier) by ring]
    rw [abs_neg]
    exact abs_of_pos ht
  simp only [Bool.false_eq_true, if_false, hrisk, hreward]
  rw [if_pos hs]
  rw [mul_div_mul_left _ _ (ne_of_gt h1)]

end Signals

/-- A data-frame view whose ATR column holds 0 at the last row, with a
bullish EMA cross. -/
def zeroAtrDf : Signals.SignalDfView :=
  { close := 2000, atr := some 0, emaCols := some ⟨10, 5, 3, 4⟩,
    stoch := none }

/-- A STRONG_UPTREND regime input. -/
def upRegime : Signals.MarketRegime :=
  { trend := TrendState.STRONG_UPTREND,
    combined_regime := "STRONG_UPTREND + NORMAL_VOL + NORMAL_LIQ" }

/-- A pattern analysis with no historical edge. -/
def zeroPattern : Signals.PatternAnalysis :=
  { bullish_success_rate := 0, bearish_success_rate := 0 }

/-- A NEUTRAL sentiment report. -/
def neutralSentiment : Signals.SentimentReport :=
  { sentiment := MarketSentiment.NEUTRAL }

/-- C6 (counterexample): on a row whose ATR value is 0 the generator still
emits a LONG_ENTRY signal, but with `SL = entry = TP` (2000) and
`risk_reward_ratio = 0`, violating both `SL < entry < TP` and
`rr ≈ atr_tp_mult / atr_stop_mult = 3/2` (off by 3/2 > 1e-9). -/
theorem c6_zero_atr_counterexample :
    (Signals.generateSignal Signals.defaultGen zeroAtrDf upRegime
      zeroPattern neutralSentiment).signal_type = SignalType.LONG_ENTRY ∧
    (Signals.generateSignal Signals.defaultGen zeroAtrDf upRegime
      zeroPattern neutralSentiment).suggested_stop_loss = some 2000 ∧
    (Signals.generateSignal Signals.defaultGen zeroAtrDf upRegime
      zeroPattern neutralSentiment).suggested_take_profit = some 2000 ∧
    (Signals.generateSignal Signals.defaultGen zeroAtrDf upRegime
      zeroPattern neutralSentiment).price = 2000 ∧
    (Signals.generateSignal Signals.defaultGen zeroAtrDf upRegime
      zeroPattern neutralSentiment).risk_reward_ratio = some 0 ∧
    ¬ ((2000 : ℚ) < 2000) ∧
    |(0 : ℚ) - Signals.defaultGen.atr_tp_multiplier /
        Signals.defaultGen.atr_stop_multiplier| > 1/1000000000 := by
  refine ⟨?_, ?_, ?_, ?_, ?_, by norm_num, ?_⟩ <;>
    norm_num [Signals.generateSignal, Signals.checkLongCriteria,
      Signals.checkShortCriteria, Signals.determineStrength,
      Signals.calculateRiskParams, Signals.defaultGen, zeroAtrDf, upRegime,
      zeroPattern, neutralSentiment, abs_of_pos,
      show ¬(SignalStrength.WEAK = SignalStrength.NO_SIGNAL) by decide,
      show ¬(MarketSentiment.NEUTRAL = MarketSentiment.RISK_ON) by decide,
      show ¬(MarketSentiment.NEUTRAL = MarketSentiment.RISK_OFF) by decide,
      show ¬(TrendState.STRONG_UPTREND = TrendState.STRONG_DOWNTREND) by decide,
      show ¬(TrendState.STRONG_UPTREND = TrendState.WEAK_DOWNTREND) by decide]

/-- C6 (amended): whenever the effective ATR (the row's ATR, or 2% of the
close when the column is absent) and both multipliers are positive, every
non-NO_SIGNAL signal satisfies the risk invariant: LONG ⇒
`SL < entry < TP`, SHORT ⇒ `TP < entry < SL`, and the risk/reward ratio
equals `atr_tp_multiplier / atr_stop_multiplier` exactly. -/
theorem c6_risk_invariant_amended (gen : Signals.SignalGenerator)
    (df : Signals.SignalDfView) (regime : Signals.MarketRegime)
    (pattern : Signals.PatternAnalysis) (sentiment : Signals.SentimentReport)
    (h1 : 0 < Signals.effAtr df) (h2 : 0 < gen.atr_stop_multiplier)
    (h3 : 0 < gen.atr_tp_multiplier) (s : Signals.TradingSignal)
    (hs : s = Signals.generateSignal gen df regime pattern sentiment) :
    (s.signal_type = SignalType.LONG_ENTRY →
      ∃ sl tp rr, s.suggested_stop_loss = some sl ∧
        s.suggested_take_profit = some tp ∧
        s.risk_reward_ratio = some rr ∧
        sl < s.price ∧ s.price < tp ∧
        rr = gen.atr_tp_multiplier / gen.atr_stop_multiplier) ∧
    (s.signal_type = SignalType.SHORT_ENTRY →
      ∃ sl tp rr, s.suggested_stop_loss = some sl ∧
        s.suggested_take_profit = some tp ∧
        s.risk_reward_ratio = some rr ∧
        tp < s.price ∧ s.price < sl ∧
        rr = gen.atr_tp_multiplier / gen.atr_stop_multiplier) := by
  have hstop := mul_pos h1 h2
  have htp := mul_pos h1 h3
  subst hs
  unfold Signals.generateSignal
  dsimp only
  have hatr : df.atr.getD (df.close * (2/100)) = Signals.effAtr df := rfl
  rw [hatr]
  split_ifs with hL hS
  · rw [Signals.calculateRiskParams_long gen df.close (Signals.effAtr df)
      h1 h2 h3]
    constructor
    · intro _
      exact ⟨_, _, _, rfl, rfl, rfl, by dsimp only; linarith,
        by dsimp only; linarith, rfl⟩
    · intro hbad
      simp at hbad
  · rw [Signals.calculateRiskParams_short gen df.close (Signals.effAtr df)
      h1 h2 h3]
    constructor
    · intro hbad
      simp at hbad
    · intro _
      exact ⟨_, _, _, rfl, rfl, rfl, by dsimp only; linarith,
        by dsimp only; linarith, rfl⟩
  · constructor
    · intro hbad
      simp at hbad
    · intro hbad
      simp at hbad

/-- A strongly bullish data-frame view: ATR 10, bullish EMA cross, Stoch_K
25. -/
def strongLongDf : Signals.SignalDfView :=
  { close := 2000, atr := some 10, emaCols := some ⟨10, 5, 3, 4⟩,
    stoch := some 25 }

/-- A 72% bullish pattern analysis. -/
def strongPattern : Signals.PatternAnalysis :=
  { bullish_success_rate := 72, bearish_success_rate := 28 }

/-- A RISK_ON sentiment report. -/
def riskOnSentiment : Signals.SentimentReport :=
  { sentiment := MarketSentiment.RISK_ON }

/-- Witness for C6 (amended): entry 2000, ATR 10, multipliers (2, 3) give a
LONG signal with SL 1980 < 2000 < TP 2030 and rr = 3/2. -/
theorem c6_risk_invariant_amended_witness :
    (0 : ℚ) < Signals.effAtr strongLongDf ∧
    (Signals.generateSignal Signals.defaultGen strongLongDf upRegime
      strongPattern riskOnSentiment).signal_type = SignalType.LONG_ENTRY ∧
    (∃ sl tp rr,
      (Signals.generateSignal Signals.defaultGen strongLongDf upRegime
        strongPattern riskOnSentiment).suggested_stop_loss = some sl ∧
      (Signals.generateSignal Signals.defaultGen strongLongDf upRegime
        strongPattern riskOnSentiment).suggested_take_profit = some tp ∧
      (Signals.generateSignal Signals.defaultGen strongLongDf upRegime
        strongPattern riskOnSentiment).risk_reward_ratio = some rr ∧
      sl < (Signals.generateSignal Signals.defaultGen strongLongDf upRegime
        strongPattern riskOnSentiment).price ∧
      (Signals.generateSignal Signals.defaultGen strongLongDf upRegime
        strongPattern riskOnSentiment).price < tp ∧
      rr = Signals.defaultGen.atr_tp_multiplier /
        Signals.defaultGen.atr_stop_multiplier) := by
  have htype : (Signals.generateSignal Signals.defaultGen strongLongDf
      upRegime strongPattern riskOnSentiment).signal_type =
      SignalType.LONG_ENTRY := by
    norm_num [Signals.generateSignal, Signals.checkLongCriteria,
      Signals.checkShortCriteria, Signals.determineStrength,
      Signals.calculateRiskParams, Signals.defaultGen, strongLongDf,
      upRegime, strongPattern, riskOnSentiment,
      show ¬(SignalStrength.STRONG = SignalStrength.NO_SIGNAL) by decide,
      show ¬(MarketSentiment.RISK_ON = MarketSentiment.RISK_OFF) by decide,
      show ¬(MarketSentiment.RISK_ON = MarketSentiment.NEUTRAL) by decide,
      show ¬(TrendState.STRONG_UPTREND = TrendState.STRONG_DOWNTREND) by decide,
      show ¬(TrendState.STRONG_UPTREND = TrendState.WEAK_DOWNTREND) by decide]
  refine ⟨by norm_num [Signals.effAtr, strongLongDf], htype, ?_⟩
  exact (c6_risk_invariant_amended Signals.defaultGen strongLongDf upRegime
    strongPattern riskOnSentiment
    (by norm_num [Signals.effAtr, strongLongDf])
    (by norm_num [Signals.defaultGen]) (by norm_num [Signals.defaultGen])
    _ rfl).1 htype

/-! ## Pattern Miner: the four mining families

From `learning/pattern_miner.py`.  `DiscoveredPattern` keeps the semantic
fields; the display/identifier strings (`pattern_id`, `name`,
`description`) and the wall-clock `discovered_at` are not modelled.
Heterogeneous condition-dictionary values become `PMCondValue`.  A NULL
indicator value inside a winners-average (`np.mean([d["rsi"] ...])`, which
the source would crash on) is totalised with 0. -/

namespace PatternMiner

open Learning

inductive PMCondValue
  | op (operator : String) (value : ℚ)
  | opStr (operator : String) (value : String)
  | num (value : ℚ)
  deriving DecidableEq, Repr

structure DiscoveredPattern where
  conditions : List (String × PMCondValue)
  direction : String
  win_rate : ℚ
  profit_factor : ℚ
  sample_size : ℕ
  avg_profit : ℚ
  max_drawdown : ℚ
  best_regime : String
  best_session : String
  confidence : ℚ
  deriving DecidableEq, Repr

/-- `self.min_sample_size` -/
def min_sample_size : ℕ := 30
/-- `self.min_win_rate` -/
def min_win_rate : ℚ := 55
/-- `self.min_profit_factor` -/
def min_profit_factor : ℚ := 13/10

/-- `self.indicator_thresholds` -/
def indicatorThresholds : List (String × List ℚ) :=
  [("rsi", [20, 25, 30, 35, 40, 60, 65, 70, 75, 80]),
   ("stoch_k", [15, 20, 25, 30, 70, 75, 80, 85]),
   ("adx", [15, 20, 25, 30, 35, 40]),
   ("atr_percentile", [20, 30, 40, 60, 70, 80])]

/-- `self.regimes` -/
def regimesList : List String :=
  ["STRONG_UPTREND", "WEAK_UPTREND", "RANGING", "WEAK_DOWNTREND",
   "STRONG_DOWNTREND", "ALL"]

/-- `self.sessions` -/
def sessionsList : List String :=
  ["asia", "london", "newyork", "overlap", "ALL"]

/-- `[d for d in filtered if d["outcome"] == "WIN"]` -/
def winsOf (l : List Datum) : List Datum :=
  l.filter (fun d => decide (d.outcome = "WIN"))

/-- `[d for d in filtered if d["outcome"] == "LOSS"]` -/
def lossesOf (l : List Datum) : List Datum :=
  l.filter (fun d => decide (d.outcome = "LOSS"))

/-- `len(wins) / len(filtered) * 100` -/
def winRateOf (l : List Datum) : ℚ :=
  ((winsOf l).length : ℚ) / l.length * 100

/-- `abs(sum(d["pnl"] for d in losses)) or 0.01` -/
def totalLossOf (l : List Datum) : ℚ :=
  let s := |((lossesOf l).map Datum.pnl).sum|
  if s = 0 then 1/100 else s

/-- `total_profit / total_loss` -/
def profitFactorOf (l : List Datum) : ℚ :=
  ((winsOf l).map Datum.pnl).sum / totalLossOf l

/-- `sum(d["pnl"] for d in filtered) / len(filtered)` -/
def avgProfitOf (l : List Datum) : ℚ :=
  (l.map Datum.pnl).sum / l.length

/-- `min(d["pnl"] for d in filtered)` -/
def maxDrawdownOf (l : List Datum) : ℚ :=
  listMinQ (l.map Datum.pnl)

/-- `np.mean(stats[k])` for the per-key win flags: the fraction of wins
among the rows carrying key `k`. -/
def winFrac (l : List Datum) (key : Datum → String) (k : String) : ℚ :=
  let grp := l.filter (fun d => decide (key d = k))
  ((winsOf grp).length : ℚ) / grp.length

/-- `max(stats.keys(), key=lambda k: np.mean(stats[k]), default="ALL")`:
keys in first-occurrence order, earliest maximum wins. -/
def bestBy (l : List Datum) (key : Datum → String) : String :=
  argmaxBy (winFrac l key) "ALL" (dedupKeys (l.map key))

/-- The shared confidence formula
`min(100, (wr − 50)·2 + (pf − 1)·20 + min(n/10, 30) + bonus)`. -/
def confidenceOf (win_rate profit_factor : ℚ) (n : ℕ) (bonus : ℚ) : ℚ :=
  min 100 ((win_rate - 50) * 2 + (profit_factor - 1) * 20 +
    min ((n : ℚ) / 10) 30 + bonus)

/-- One candidate of `mine_single_indicator_patterns`: filter, apply the
three gates, and build the pattern. -/
def singlePattern? (data : List Datum) (indicator : String) (threshold : ℚ)
    (direction cmp : String) : Option DiscoveredPattern :=
  let filtered :=
    if cmp = "<" then
      data.filter (fun d => decide ((d.getInd indicator).getD 50 < threshold)
        && decide (d.direction = direction))
    else
      data.filter (fun d => decide ((d.getInd indicator).getD 50 > threshold)
        && decide (d.direction = direction))
  if filtered.length < min_sample_size then none
  else if winRateOf filtered < min_win_rate then none
  else if profitFactorOf filtered < min_profit_factor then none
  else
    some { conditions := [(indicator, PMCondValue.op cmp threshold)],
           direction := direction,
           win_rate := roundTo 2 (winRateOf filtered),
           profit_factor := roundTo 2 (profitFactorOf filtered),
           sample_size := filtered.length,
           avg_profit := roundTo 2 (avgProfitOf filtered),
           max_drawdown := roundTo 2 (maxDrawdownOf filtered),
           best_regime := bestBy filtered (fun d => d.regime),
           best_session := bestBy filtered (fun d => d.session),
           confidence :=
             roundTo 1 (confidenceOf (winRateOf filtered)
               (profitFactorOf filtered) filtered.length 0) }

/-- `PatternMiner.mine_single_indicator_patterns`: the full grid. -/
def mineSinglePatterns (data : List Datum) : List DiscoveredPattern :=
  indicatorThresholds.flatMap (fun it =>
    it.2.flatMap (fun th =>
      (["LONG", "SHORT"] : List String).flatMap (fun dir =>
        (["<", ">"] : List String).filterMap (fun cmp =>
          singlePattern? data it.1 th dir cmp))))

/-- One entry of the fixed combo catalog (its display name is not
modelled). -/
structure Combo where
  conds : List (String × String × ℚ)
  direction : String
  deriving DecidableEq, Repr

/-- The `combos` catalog of `mine_combo_patterns`. -/
def combosCatalog : List Combo :=
  [⟨[("stoch_k", "<", 25), ("rsi", ">", 45)], "LONG"⟩,
   ⟨[("stoch_k", ">", 75), ("rsi", "<", 55)], "SHORT"⟩,
   ⟨[("adx", ">", 30), ("rsi", ">", 55)], "LONG"⟩,
   ⟨[("adx", ">", 30), ("rsi", "<", 45)], "SHORT"⟩,
   ⟨[("stoch_k", "<", 20), ("rsi", "<", 30)], "LONG"⟩,
   ⟨[("stoch_k", ">", 80), ("rsi", ">", 70)], "SHORT"⟩]

/-- The sequential condition filters of a combo (`<` filters below, any
other operator filters above, as the source's `if/else` does). -/
def applyComboConds (conds : List (String × String × ℚ))
    (l : List Datum) : List Datum :=
  conds.foldl (fun acc c =>
    if c.2.1 = "<" then
      acc.filter (fun d => decide ((d.getInd c.1).getD 50 < c.2.2))
    else
      acc.filter (fun d => decide ((d.getInd c.1).getD 50 > c.2.2))) l

/-- One candidate of `mine_combo_patterns` (combo patterns get the +10
confidence bonus). -/
def comboPattern? (data : List Datum) (combo : Combo) :
    Option DiscoveredPattern :=
  let filtered := (applyComboConds combo.conds data).filter
    (fun d => decide (d.direction = combo.direction))
  if filtered.length < min_sample_size then none
  else if winRateOf filtered < min_win_rate then none
  else if profitFactorOf filtered < min_profit_factor then none
  else
    some { conditions := combo.conds.map
             (fun c => (c.1, PMCondValue.op c.2.1 c.2.2)),
           direction := combo.direction,
           win_rate := roundTo 2 (winRateOf filtered),
           profit_factor := roundTo 2 (profitFactorOf filtered),
           sample_size := filtered.length,
           avg_profit := roundTo 2 (avgProfitOf filtered),
           max_drawdown := roundTo 2 (maxDrawdownOf filtered),
           best_regime := bestBy filtered (fun d => d.regime),
           best_session := bestBy filtered (fun d => d.session),
           confidence :=
             roundTo 1 (confidenceOf (winRateOf filtered)
               (profitFactorOf filtered) filtered.length 10) }

/-- `PatternMiner.mine_combo_patterns`. -/
def mineComboPatterns (data : List Datum) : List DiscoveredPattern :=
  combosCatalog.filterMap (comboPattern? data)

/-- One candidate of `mine_regime_patterns`: note the direction bucket is
only required to hold `min_sample_size // 2 = 15` rows. -/
def regimePattern? (data : List Datum) (regime direction : String) :
    Option DiscoveredPattern :=
  let regime_data := data.filter (fun d => decide (d.regime = regime))
  if regime_data.length < min_sample_size then none
  else
    let dir_data := regime_data.filter
      (fun d => decide (d.direction = direction))
    if dir_data.length < min_sample_size / 2 then none
    else if winRateOf dir_data < min_win_rate then none
    else if profitFactorOf dir_data < min_profit_factor then none
    else
      some { conditions :=
               [("regime", PMCondValue.opStr "==" regime),
                ("rsi_optimal", PMCondValue.num
                  (roundTo 1 (meanQ ((winsOf dir_data).map
                    (fun d => d.rsi.getD 0))))),
                ("stoch_optimal", PMCondValue.num
                  (roundTo 1 (meanQ ((winsOf dir_data).map
                    (fun d => d.stoch_k.getD 0))))),
                ("adx_optimal", PMCondValue.num
                  (roundTo 1 (meanQ ((winsOf dir_data).map
                    (fun d => d.adx.getD 0)))))],
             direction := direction,
             win_rate := roundTo 2 (winRateOf dir_data),
             profit_factor := roundTo 2 (profitFactorOf dir_data),
             sample_size := dir_data.length,
             avg_profit := roundTo 2 (avgProfitOf dir_data),
             max_drawdown := roundTo 2 (maxDrawdownOf dir_data),
             best_regime := regime,
             best_session := "ALL",
             confidence :=
               roundTo 1 (confidenceOf (winRateOf dir_data)
                 (profitFactorOf dir_data) dir_data.length 0) }

/-- `PatternMiner.mine_regime_patterns` (the `"ALL"` entry is skipped). -/
def mineRegimePatterns (data : List Datum) : List DiscoveredPattern :=
  regimesList.flatMap (fun regime =>
    if regime = "ALL" then []
    else (["LONG", "SHORT"] : List String).filterMap
      (regimePattern? data regime))

/-- One candidate of `mine_session_patterns`; same two-level sample gate as
the regime family. -/
def sessionPattern? (data : List Datum) (session direction : String) :
    Option DiscoveredPattern :=
  let session_data := data.filter (fun d => decide (d.session = session))
  if session_data.length < min_sample_size then none
  else
    let dir_data := session_data.filter
      (fun d => decide (d.direction = direction))
    if dir_data.length < min_sample_size / 2 then none
    else if winRateOf dir_data < min_win_rate then none
    else if profitFactorOf dir_data < min_profit_factor then none
    else
      some { conditions :=
               [("session", PMCondValue.opStr "==" session),
                ("adx_min", PMCondValue.num
                  (roundTo 0 (meanQ ((winsOf dir_data).map
                    (fun d => d.adx.getD 0)) - 5)))],
             direction := direction,
             win_rate := roundTo 2 (winRateOf dir_data),
             profit_factor := roundTo 2 (profitFactorOf dir_data),
             sample_size := dir_data.length,
             avg_profit := roundTo 2 (avgProfitOf dir_data),
             max_drawdown := roundTo 2 (maxDrawdownOf dir_data),
             best_regime := "ALL",
             best_session := session,
             confidence :=
               roundTo 1 (confidenceOf (winRateOf dir_data)
                 (profitFactorOf dir_data) dir_data.length 0) }

/-- `PatternMiner.mine_session_patterns` (the `"ALL"` entry is skipped). -/
def mineSessionPatterns (data : List Datum) : List DiscoveredPattern :=
  sessionsList.flatMap (fun session =>
    if session = "ALL" then []
    else (["LONG", "SHORT"] : List String).filterMap
      (sessionPattern? data session))

end PatternMiner

/-- Rounding to two places preserves the 55 lower bound. -/
theorem roundTo2_ge_55 {q : ℚ} (h : 55 ≤ q) : 55 ≤ roundTo 2 q := by
  have h0 : ((5500 : ℤ) : ℚ) / (10 : ℚ) ^ 2 ≤ q := by
    push_cast
    norm_num
    linarith
  have h1 := roundTo_ge 2 5500 q h0
  norm_num at h1
  exact h1

/-- Rounding to two places preserves the 1.3 lower bound. -/
theorem roundTo2_ge_pf {q : ℚ} (h : 13/10 ≤ q) : 13/10 ≤ roundTo 2 q := by
  have h0 : ((130 : ℤ) : ℚ) / (10 : ℚ) ^ 2 ≤ q := by
    push_cast
    norm_num
    linarith
  have h1 := roundTo_ge 2 130 q h0
  norm_num at h1
  exact h1

/-- Every single-indicator pattern passes the three gates. -/
theorem singlePattern?_gates {data : List Learning.Datum}
    {ind : String} {th : ℚ} {dir cmp : String}
    {p : PatternMiner.DiscoveredPattern}
    (h : PatternMiner.singlePattern? data ind th dir cmp = some p) :
    30 ≤ p.sample_size ∧ 55 ≤ p.win_rate ∧ 13/10 ≤ p.profit_factor := by
  unfold PatternMiner.singlePattern? at h
  dsimp only at h
  split_ifs at h <;>
    first
      | exact Option.noConfusion h
      | (injection h with h
         subst h
         exact ⟨Nat.le_of_not_lt (by assumption),
           roundTo2_ge_55 (not_lt.mp (by assumption)),
           roundTo2_ge_pf (not_lt.mp (by assumption))⟩)

/-- Every combo pattern passes the three gates. -/
theorem comboPattern?_gates {data : List Learning.Datum}
    {c : PatternMiner.Combo} {p : PatternMiner.DiscoveredPattern}
    (h : PatternMiner.comboPattern? data c = some p) :
    30 ≤ p.sample_size ∧ 55 ≤ p.win_rate ∧ 13/10 ≤ p.profit_factor := by
  unfold PatternMiner.comboPattern? at h
  dsimp only at h
  split_ifs at h <;>
    first
      | exact Option.noConfusion h
      | (injection h with h
         subst h
         exact ⟨Nat.le_of_not_lt (by assumption),
           roundTo2_ge_55 (not_lt.mp (by assumption)),
           roundTo2_ge_pf (not_lt.mp (by assumption))⟩)

/-- Every regime-specific pattern passes the win-rate and profit-factor
gates but only a 15-row sample gate. -/
theorem regimePattern?_gates {data : List Learning.Datum}
    {regime dir : String} {p : PatternMiner.DiscoveredPattern}
    (h : PatternMiner.regimePattern? data regime dir = some p) :
    15 ≤ p.sample_size ∧ 55 ≤ p.win_rate ∧ 13/10 ≤ p.profit_factor := by
  unfold PatternMiner.regimePattern? at h
  dsimp only at h
  split_ifs at h <;>
    first
      | exact Option.noConfusion h
      | (injection h with h
         subst h
         exact ⟨Nat.le_of_not_lt (by assumption),
           roundTo2_ge_55 (not_lt.mp (by assumption)),
           roundTo2_ge_pf (not_lt.mp (by assumption))⟩)

/-- Every session-specific pattern passes the win-rate and profit-factor
gates but only a 15-row sample gate. -/
theorem sessionPattern?_gates {data : List Learning.Datum}
    {session dir : String} {p : PatternMiner.DiscoveredPattern}
    (h : PatternMiner.sessionPattern? data session dir = some p) :
    15 ≤ p.sample_size ∧ 55 ≤ p.win_rate ∧ 13/10 ≤ p.profit_factor := by
  unfold PatternMiner.sessionPattern? at h
  dsimp only at h
  split_ifs at h <;>
    first
      | exact Option.noConfusion h
      | (injection h with h
         subst h
         exact ⟨Nat.le_of_not_lt (by assumption),
           roundTo2_ge_55 (not_lt.mp (by assumption)),
           roundTo2_ge_pf (not_lt.mp (by assumption))⟩)

/-- C4 (amended): output gates of the Pattern Miner.  Single-indicator and
combo patterns satisfy `sample_size ≥ 30 ∧ win_rate ≥ 55 ∧
profit_factor ≥ 1.3`; regime- and session-specific patterns satisfy the
same win-rate and profit-factor gates but only `sample_size ≥ 15`
(`min_sample_size // 2`, inside a regime/session bucket of at least 30
rows). -/
theorem c4_pattern_gates_amended (data : List Learning.Datum)
    (p : PatternMiner.DiscoveredPattern) :
    ((p ∈ PatternMiner.mineSinglePatterns data ∨
        p ∈ PatternMiner.mineComboPatterns data) →
      30 ≤ p.sample_size ∧ 55 ≤ p.win_rate ∧ 13/10 ≤ p.profit_factor) ∧
    ((p ∈ PatternMiner.mineRegimePatterns data ∨
        p ∈ PatternMiner.mineSessionPatterns data) →
      15 ≤ p.sample_size ∧ 55 ≤ p.win_rate ∧ 13/10 ≤ p.profit_factor) := by
  constructor
  · rintro (hm | hm)
    · unfold PatternMiner.mineSinglePatterns at hm
      simp only [List.mem_flatMap, List.mem_filterMap] at hm
      obtain ⟨it, -, th, -, dir, -, cmp, -, hc⟩ := hm
      exact singlePattern?_gates hc
    · unfold PatternMiner.mineComboPatterns at hm
      simp only [List.mem_filterMap] at hm
      obtain ⟨c, -, hc⟩ := hm
      exact comboPattern?_gates hc
  · rintro (hm | hm)
    · unfold PatternMiner.mineRegimePatterns at hm
      simp only [List.mem_flatMap] at hm
      obtain ⟨r, -, hmem⟩ := hm
      split at hmem
      · simp at hmem
      · simp only [List.mem_filterMap] at hmem
        obtain ⟨dir, -, hc⟩ := hmem
        exact regimePattern?_gates hc
    · unfold PatternMiner.mineSessionPatterns at hm
      simp only [List.mem_flatMap] at hm
      obtain ⟨s, -, hmem⟩ := hm
      split at hmem
      · simp at hmem
      · simp only [List.mem_filterMap] at hmem
        obtain ⟨dir, -, hc⟩ := hmem
        exact sessionPattern?_gates hc

/-- A RANGING LONG winner used to populate the regime bucket. -/
def rangeWin : Learning.Datum :=
  { timestamp := "2025-01-01", price := 2650, rsi := some 50,
    stoch_k := some 50, stoch_d := some 50, adx := some 50, atr := some 10,
    atr_percentile := none, regime := "RANGING", session := "asia",
    direction := "LONG", outcome := "WIN", pnl := 1 }

/-- A RANGING SHORT loser used to pad the regime bucket to 30 rows. -/
def rangeLoss : Learning.Datum :=
  { timestamp := "2025-01-02", price := 2650, rsi := some 50,
    stoch_k := some 50, stoch_d := some 50, adx := some 50, atr := some 10,
    atr_percentile := none, regime := "RANGING", session := "asia",
    direction := "SHORT", outcome := "LOSS", pnl := -1 }

/-- Thirty RANGING rows: 15 LONG winners and 15 SHORT losers, so the
regime bucket passes its 30-row gate while the LONG direction bucket holds
only 15 rows. -/
def regimeGateData : List Learning.Datum :=
  [rangeWin, rangeWin, rangeWin, rangeWin, rangeWin, rangeWin, rangeWin,
   rangeWin, rangeWin, rangeWin, rangeWin, rangeWin, rangeWin, rangeWin,
   rangeWin, rangeLoss, rangeLoss, rangeLoss, rangeLoss, rangeLoss,
   rangeLoss, rangeLoss, rangeLoss, rangeLoss, rangeLoss, rangeLoss,
   rangeLoss, rangeLoss, rangeLoss, rangeLoss]

/-- The regime pattern the miner emits on `regimeGateData`: only 15
samples. -/
def pReg15 : PatternMiner.DiscoveredPattern :=
  { conditions :=
      [("regime", PatternMiner.PMCondValue.opStr "==" "RANGING"),
       ("rsi_optimal", PatternMiner.PMCondValue.num 50),
       ("stoch_optimal", PatternMiner.PMCondValue.num 50),
       ("adx_optimal", PatternMiner.PMCondValue.num 50)],
    direction := "LONG", win_rate := 100, profit_factor := 1500,
    sample_size := 15, avg_profit := 1, max_drawdown := 1,
    best_regime := "RANGING", best_session := "ALL", confidence := 100 }

set_option maxHeartbeats 3000000 in
/-- C4 (counterexample): on thirty RANGING rows (15 LONG wins, 15 SHORT
losses) the regime-specific family emits a DiscoveredPattern with
`sample_size = 15 < 30`, refuting the claimed `sample_size ≥ 30` gate for
all four families. -/
theorem c4_regime_pattern_sample_15 :
    ∃ p ∈ PatternMiner.mineRegimePatterns regimeGateData,
      p.sample_size < 30 := by
  have hev : PatternMiner.mineRegimePatterns regimeGateData = [pReg15] := by
    norm_num [PatternMiner.mineRegimePatterns, PatternMiner.regimePattern?,
      PatternMiner.regimesList, PatternMiner.winsOf, PatternMiner.lossesOf,
      PatternMiner.winRateOf, PatternMiner.totalLossOf,
      PatternMiner.profitFactorOf, PatternMiner.avgProfitOf,
      PatternMiner.maxDrawdownOf, meanQ, listMinQ,
      roundTo, roundHalfEven, PatternMiner.confidenceOf,
      PatternMiner.min_sample_size, PatternMiner.min_win_rate,
      PatternMiner.min_profit_factor, regimeGateData, rangeWin, rangeLoss,
      pReg15, List.filter_cons, List.filter_nil, List.filterMap_cons,
      List.filterMap_nil, List.flatMap_cons, List.flatMap_nil,
      show ¬("STRONG_UPTREND" = "ALL") by decide,
      show ¬("WEAK_UPTREND" = "ALL") by decide,
      show ¬("RANGING" = "ALL") by decide,
      show ¬("WEAK_DOWNTREND" = "ALL") by decide,
      show ¬("STRONG_DOWNTREND" = "ALL") by decide,
      show ¬("RANGING" = "STRONG_UPTREND") by decide,
      show ¬("RANGING" = "WEAK_UPTREND") by decide,
      show ¬("RANGING" = "WEAK_DOWNTREND") by decide,
      show ¬("RANGING" = "STRONG_DOWNTREND") by decide,
      show ¬("SHORT" = "LONG") by decide,
      show ¬("LONG" = "SHORT") by decide,
      show ¬("LOSS" = "WIN") by decide,
      show ¬("WIN" = "LOSS") by decide]
  refine ⟨pReg15, ?_, by norm_num [pReg15]⟩
  rw [hev]
  exact List.mem_singleton_self _

/-- A LONG winner matching the first combo (`stoch_k < 25 ∧ rsi > 45`). -/
def comboWin : Learning.Datum :=
  { timestamp := "2025-01-03", price := 2650, rsi := some 50,
    stoch_k := some 20, stoch_d := some 20, adx := some 10, atr := some 10,
    atr_percentile := none, regime := "RANGING", session := "asia",
    direction := "LONG", outcome := "WIN", pnl := 1 }

/-- Thirty rows matching only the first combo. -/
def comboGateData : List Learning.Datum :=
  [comboWin, comboWin, comboWin, comboWin, comboWin, comboWin, comboWin,
   comboWin, comboWin, comboWin, comboWin, comboWin, comboWin, comboWin,
   comboWin, comboWin, comboWin, comboWin, comboWin, comboWin, comboWin,
   comboWin, comboWin, comboWin, comboWin, comboWin, comboWin, comboWin,
   comboWin, comboWin]

/-- The combo pattern the miner emits on `comboGateData`: 30 samples. -/
def pCombo : PatternMiner.DiscoveredPattern :=
  { conditions :=
      [("stoch_k", PatternMiner.PMCondValue.op "<" 25),
       ("rsi", PatternMiner.PMCondValue.op ">" 45)],
    direction := "LONG", win_rate := 100, profit_factor := 3000,
    sample_size := 30, avg_profit := 1, max_drawdown := 1,
    best_regime := "RANGING", best_session := "asia", confidence := 100 }

set_option maxHeartbeats 3000000 in
/-- Witness for C4 (amended): the combo family emits a 30-sample pattern
on `comboGateData`, and the regime family emits the 15-sample pattern on
`regimeGateData`; both satisfy their family's gates. -/
theorem c4_pattern_gates_amended_witness :
    (pCombo ∈ PatternMiner.mineComboPatterns comboGateData ∧
      30 ≤ pCombo.sample_size ∧ 55 ≤ pCombo.win_rate ∧
      13/10 ≤ pCombo.profit_factor) ∧
    (pReg15 ∈ PatternMiner.mineRegimePatterns regimeGateData ∧
      15 ≤ pReg15.sample_size ∧ 55 ≤ pReg15.win_rate ∧
      13/10 ≤ pReg15.profit_factor) := by
  have hc : PatternMiner.mineComboPatterns comboGateData = [pCombo] := by
    norm_num [PatternMiner.mineComboPatterns, PatternMiner.comboPattern?,
      PatternMiner.combosCatalog, PatternMiner.applyComboConds,
      PatternMiner.winsOf, PatternMiner.lossesOf, PatternMiner.winRateOf,
      PatternMiner.totalLossOf, PatternMiner.profitFactorOf,
      PatternMiner.avgProfitOf, PatternMiner.maxDrawdownOf, meanQ, listMinQ,
      roundTo, roundHalfEven, PatternMiner.confidenceOf,
      PatternMiner.min_sample_size, PatternMiner.min_win_rate,
      PatternMiner.min_profit_factor, comboGateData, comboWin, pCombo,
      PatternMiner.bestBy, PatternMiner.winFrac, dedupKeys, argmaxBy,
      Learning.Datum.getInd, List.filter_cons, List.filter_nil,
      List.filterMap_cons, List.filterMap_nil,
      show ¬("SHORT" = "LONG") by decide,
      show ¬("LONG" = "SHORT") by decide,
      show ¬("LOSS" = "WIN") by decide,
      show ¬("WIN" = "LOSS") by decide,
      show ¬("stoch_k" = "rsi") by decide,
      show ¬("rsi" = "stoch_k") by decide,
      show ¬("adx" = "rsi") by decide,
      show ¬("adx" = "stoch_k") by decide,
      show ¬("adx" = "stoch_d") by decide,
      show ¬(">" = "<") by decide]
  have hr : PatternMiner.mineRegimePatterns regimeGateData = [pReg15] := by
    norm_num [PatternMiner.mineRegimePatterns, PatternMiner.regimePattern?,
      PatternMiner.regimesList, PatternMiner.winsOf, PatternMiner.lossesOf,
      PatternMiner.winRateOf, PatternMiner.totalLossOf,
      PatternMiner.profitFactorOf, PatternMiner.avgProfitOf,
      PatternMiner.maxDrawdownOf, meanQ, listMinQ,
      roundTo, roundHalfEven, PatternMiner.confidenceOf,
      PatternMiner.min_sample_size, PatternMiner.min_win_rate,
      PatternMiner.min_profit_factor, regimeGateData, rangeWin, rangeLoss,
      pReg15, List.filter_cons, List.filter_nil, List.filterMap_cons,
      List.filterMap_nil, List.flatMap_cons, List.flatMap_nil,
      show ¬("STRONG_UPTREND" = "ALL") by decide,
      show ¬("WEAK_UPTREND" = "ALL") by decide,
      show ¬("RANGING" = "ALL") by decide,
      show ¬("WEAK_DOWNTREND" = "ALL") by decide,
      show ¬("STRONG_DOWNTREND" = "ALL") by decide,
      show ¬("RANGING" = "STRONG_UPTREND") by decide,
      show ¬("RANGING" = "WEAK_UPTREND") by decide,
      show ¬("RANGING" = "WEAK_DOWNTREND") by decide,
      show ¬("RANGING" = "STRONG_DOWNTREND") by decide,
      show ¬("SHORT" = "LONG") by decide,
      show ¬("LONG" = "SHORT") by decide,
      show ¬("LOSS" = "WIN") by decide,
      show ¬("WIN" = "LOSS") by decide]
  have hm1 : pCombo ∈ PatternMiner.mineComboPatterns comboGateData := by
    rw [hc]
    exact List.mem_singleton_self _
  have hm2 : pReg15 ∈ PatternMiner.mineRegimePatterns regimeGateData := by
    rw [hr]
    exact List.mem_singleton_self _
  exact ⟨⟨hm1, (c4_pattern_gates_amended comboGateData pCombo).1
      (Or.inr hm1)⟩,
    ⟨hm2, (c4_pattern_gates_amended regimeGateData pReg15).2 (Or.inl hm2)⟩⟩
